import Mathlib

/-!
Shallow embedding of the transaction-classification and household-settlement
engine of the expense-tracker application (src/expense_tracker/__init__.py),
together with proofs about the claims of its specification.

Modelling conventions:
* Python strings are Lean `String`; all the inputs exercised by the claims are
  ASCII, on which the source's NFKD-decompose / strip-combining-marks step is
  the identity, so the embedding of `normalize_description` omits it.
* Python floats are modelled as exact rationals `ℚ`; `round(x, 2)` becomes
  exact round-half-to-even at two decimals.
* SQL queries over the relational store are modelled as pure functions over
  lists of records; SQLite string comparison and `LIKE 'p%'` become
  lexicographic comparison and prefix tests on `String`.
-/

set_option maxRecDepth 8000
set_option maxHeartbeats 2000000

namespace ExpenseTracker

/-- Characters Python's regex `\s` and `str.strip()` treat as whitespace
(ASCII fragment). -/
def isSpaceChar (c : Char) : Bool :=
  c = ' ' || c = '\t' || c = '\n' || c = '\r' || c = '\x0b' || c = '\x0c'

/-- Drop characters satisfying `p` from both ends of a list, as Python
`str.strip(chars)`. -/
def stripChars (p : Char → Bool) (l : List Char) : List Char :=
  ((l.dropWhile p).reverse.dropWhile p).reverse

/-- Replace every maximal run of whitespace by a single space, as Python
`re.sub(r"\s+", " ", s)` (leading and trailing runs also become one space). -/
def collapseWsAux : Bool → List Char → List Char
  | _, [] => []
  | inRun, c :: rest =>
    if isSpaceChar c then
      (if inRun then [] else [' ']) ++ collapseWsAux true rest
    else c :: collapseWsAux false rest

def collapseWs (l : List Char) : List Char := collapseWsAux false l

/-- Split on whitespace runs dropping empty pieces, as Python `str.split()`. -/
def splitWsAux : List Char → List Char → List String
  | acc, [] => if acc.isEmpty then [] else [String.mk acc.reverse]
  | acc, c :: rest =>
    if isSpaceChar c then
      (if acc.isEmpty then [] else [String.mk acc.reverse]) ++ splitWsAux [] rest
    else splitWsAux (c :: acc) rest

def splitWs (l : List Char) : List String := splitWsAux [] l

/-- Python `str.strip()` on a `String`. -/
def pyStrip (s : String) : String := String.mk (stripChars isSpaceChar s.toList)

/-- Python `str.lower()` (ASCII fragment). -/
def pyLower (s : String) : String := String.mk (s.toList.map Char.toLower)

/-- Embeds `normalize_header_name`: `" ".join((value or "").strip().lower().split())`. -/
def normalize_header_name (value : String) : String :=
  " ".intercalate (splitWs (pyLower (pyStrip value)).toList)

/-- Embeds `normalize_paid_by`. -/
def normalize_paid_by (value : String) : String :=
  let cleaned := normalize_header_name value
  if cleaned = "dk" ∨ cleaned = "denys" ∨ cleaned = "d" then "DK"
  else if cleaned = "yz" ∨ cleaned = "yuliya" ∨ cleaned = "wife" ∨ cleaned = "y" then "YZ"
  else ""

/-- Embeds `normalize_description`: strip, lowercase, NFKD + combining-mark
removal (identity on the ASCII strings modelled here), collapse whitespace. -/
def normalize_description (value : String) : String :=
  String.mk (collapseWs (pyLower (pyStrip value)).toList)

/-- Word characters of Python regex `\w` (ASCII fragment). -/
def isWordChar (c : Char) : Bool := c.isAlpha || c.isDigit || c = '_'

/-- Embeds `normalize_text`: `normalize_description`, then every character that
is not a word character, whitespace or a slash becomes a space, then collapse
and strip. -/
def normalize_text (value : String) : String :=
  let base := (normalize_description value).toList
  let replaced := base.map (fun c => if isWordChar c || c = '/' || isSpaceChar c then c else ' ')
  String.mk (stripChars isSpaceChar (collapseWs replaced))

/-- Whether `pre` is a prefix of `l`. -/
def listStartsWith : List Char → List Char → Bool
  | [], _ => true
  | _ :: _, [] => false
  | a :: as, b :: bs => a = b && listStartsWith as bs

def listHasSub (needle : List Char) : List Char → Bool
  | [] => needle.isEmpty
  | c :: rest => listStartsWith needle (c :: rest) || listHasSub needle rest

/-- Python substring containment `needle in haystack`. -/
def strHasSub (haystack needle : String) : Bool :=
  listHasSub needle.toList haystack.toList

/-- Integer value of a digit list. -/
def digitsVal (l : List Char) : Nat :=
  l.foldl (fun acc c => acc * 10 + (c.toNat - '0'.toNat)) 0

/-- Decimal-literal fragment of Python `float()`: digits with an optional
single point, at least one digit overall (exponent and special forms are not
exercised by this code's inputs). -/
def parseUnsignedDecimal (l : List Char) : Option ℚ :=
  let intPart := l.takeWhile Char.isDigit
  let rest := l.dropWhile Char.isDigit
  match rest with
  | [] => if intPart.isEmpty then none else some (digitsVal intPart : ℚ)
  | '.' :: frac =>
    if frac.all Char.isDigit ∧ ¬(intPart.isEmpty ∧ frac.isEmpty) then
      some ((digitsVal intPart : ℚ) + (digitsVal frac : ℚ) / ((10 : ℚ) ^ frac.length))
    else none
  | _ => none

def parseFloatQ (l : List Char) : Option ℚ :=
  match l with
  | '-' :: rest => (parseUnsignedDecimal rest).map (fun q => -q)
  | '+' :: rest => parseUnsignedDecimal rest
  | _ => parseUnsignedDecimal l

/-- Embeds `parse_money`: strip, drop thousands separators and currency signs,
parenthesized value is negative, then parse as a decimal number. -/
def parse_money (value : String) : Option ℚ :=
  let text := pyStrip value
  if text = "" then none
  else
    let cleaned := text.toList.filter (fun c => c ≠ ',' ∧ c ≠ '$')
    let cleaned :=
      if cleaned.head? = some '(' ∧ cleaned.getLast? = some ')' then
        '-' :: (cleaned.drop 1).dropLast
      else cleaned
    parseFloatQ cleaned

/-- Round-half-to-even to an integer, the rounding Python's builtin `round`
uses (modelled exactly over `ℚ`). -/
def roundHalfEven (x : ℚ) : ℤ :=
  if x - (⌊x⌋ : ℚ) < 1/2 then ⌊x⌋
  else if 1/2 < x - (⌊x⌋ : ℚ) then ⌊x⌋ + 1
  else if ⌊x⌋ % 2 = 0 then ⌊x⌋ else ⌊x⌋ + 1

/-- Python `round(x, 2)` modelled exactly over `ℚ`. -/
def round2 (x : ℚ) : ℚ := (roundHalfEven (x * 100) : ℚ) / 100

/-! Constant tables of the source module. -/

def DEFAULT_CATEGORIES : List String :=
  ["Groceries", "Restaurants", "Bakery & Coffee", "Mortgage", "Condo Fees",
   "Property Tax", "Utilities", "Home Maintenance & Repairs",
   "Furniture & Appliances", "Gas & Fuel", "Car Maintenance & Registration",
   "Insurance", "Parking", "Public Transit", "School & Education",
   "Sports & Activities", "Camps & Lessons", "Equipment", "Pet Food & Care",
   "Entertainment", "Subscriptions", "Activities & Recreation",
   "Tickets & Events", "General Shopping", "Electronics",
   "Cosmetics & Personal Care", "Clothing", "Pharmacy & Medical",
   "Dentist & Dental", "Alcohol & Wine", "Gifts & Presents",
   "Travel & Vacation", "Personal", "Credit Card Payments", "Transfers"]

def LEGACY_CATEGORY_MAPPING : List (String × String) :=
  [("food", "Groceries"), ("boulangerie", "Bakery & Coffee"),
   ("sushi", "Restaurants"), ("eating out", "Restaurants"),
   ("dine out", "Restaurants"), ("house", "Home Maintenance & Repairs"),
   ("home", "Home Maintenance & Repairs"), ("furniture", "Furniture & Appliances"),
   ("appliance", "Furniture & Appliances"), ("deck", "Home Maintenance & Repairs"),
   ("air conditioner", "Home Maintenance & Repairs"), ("hydro-quebec", "Utilities"),
   ("internet", "Utilities"), ("virgin", "Utilities"), ("gas", "Gas & Fuel"),
   ("stm", "Public Transit"), ("parking", "Parking"),
   ("car registration", "Car Maintenance & Registration"),
   ("car dl", "Car Maintenance & Registration"),
   ("david hockey", "Sports & Activities"), ("equipment david", "Equipment"),
   ("david summer camp", "Camps & Lessons"), ("david piano", "Activities & Recreation"),
   ("ecole ste-anne", "School & Education"), ("cookie food", "Pet Food & Care"),
   ("amazon", "General Shopping"), ("electronics", "Electronics"),
   ("cosmetics", "Cosmetics & Personal Care"), ("cinema", "Entertainment"),
   ("tickets", "Tickets & Events"), ("aquaparc", "Activities & Recreation"),
   ("ski", "Activities & Recreation"), ("tennis", "Activities & Recreation"),
   ("mortgage", "Mortgage"), ("condo fees", "Condo Fees"),
   ("property tax", "Property Tax"), ("payment thank you", "Credit Card Payments"),
   ("transfer", "Transfers"), ("return", "Transfers"), ("points", "Transfers")]

def TRANSFER_KEYWORDS : List String :=
  ["payment received", "credit card payment", "transfer", "e-transfer",
   "direct deposit", "refund", "return", "points"]

def LEARNING_STOPLIST : List String :=
  ["shop", "store", "payment", "merci", "service", "purchase", "debit",
   "credit", "transaction", "interest"]

def LEARNING_SPECIAL_PATTERNS : List String := ["apple.com/bill"]

def PAYMENT_KEYWORDS : List String :=
  ["payment received", "thank you", "online payment", "autopay",
   "payment thank you", "payment"]

def PERSONAL_KEYWORDS : List String :=
  ["salon", "spa", "barber", "gym", "hobby", "massage", "openai", "open ai",
   "chatgpt"]

def TAG_KEYWORDS : List (String × String) :=
  [("david", "David"), ("denys", "Denys"), ("cookie", "Cookie")]

def MERCHANT_RULES : List (String × List String) :=
  [("Groceries", ["metro", "iga", "provigo", "loblaws", "super c"]),
   ("Bakery & Coffee", ["boulangerie", "bakery", "patisserie", "cafe", "coffee",
     "starbucks", "tim hortons"]),
   ("Gas & Fuel", ["gas", "esso", "shell", "petro"]),
   ("Public Transit", ["stm"]),
   ("General Shopping", ["amazon", "shop", "walmart", "canadian tire"]),
   ("Utilities", ["hydro", "bell", "videotron", "virgin"]),
   ("Sports & Activities", ["hockey", "tennis", "ski", "camp", "piano"]),
   ("Subscriptions", ["apple.com/bill", "apple bill", "itunes", "icloud",
     "apple music", "apple tv", "netflix", "disney", "spotify"])]

def VENDOR_NOISE_TOKENS : List String :=
  ["pos", "purchase", "debit", "credit", "auth", "interac", "transaction",
   "card", "payment"]

def PET_CATEGORIES : List String :=
  ["Pet Food & Care", "Pet", "Vet", "Pet Insurance"]

/-! Pattern extraction and vendor derivation. -/

/-- Full match of the reference-number regex `[a-z]*\d+[a-z\d-]*` used by
`derive_vendor` to strip trailing card and reference tokens. -/
def isRefToken (l : List Char) : Bool :=
  let afterAlpha := l.dropWhile (fun c => 'a' ≤ c ∧ c ≤ 'z')
  let digits := afterAlpha.takeWhile Char.isDigit
  let rest := afterAlpha.dropWhile Char.isDigit
  ¬digits.isEmpty && rest.all (fun c => ('a' ≤ c ∧ c ≤ 'z') ∨ c.isDigit ∨ c = '-')

/-- Pop trailing tokens that look like reference numbers, one at a time. -/
def dropTrailingRefTokens (tokens : List String) : List String :=
  (tokens.reverse.dropWhile (fun t => isRefToken t.toList)).reverse

/-- Embeds `derive_vendor`. -/
def derive_vendor (description : String) : String :=
  let normalized := normalize_text description
  if normalized = "" then ""
  else
    let tokens := (splitWs normalized.toList).filter
      (fun t => ¬VENDOR_NOISE_TOKENS.contains t)
    let tokens := dropTrailingRefTokens tokens
    if tokens.isEmpty then "" else " ".intercalate (tokens.take 4)

/-- Countdown of `extract_pattern`: the first `wc`-word prefix not in the
learning stop-word list, shrinking `wc` until it hits zero. -/
def extractPatternLoop (words : List String) : Nat → String
  | 0 => ""
  | wc + 1 =>
    let candidate := " ".intercalate (words.take (wc + 1))
    if LEARNING_STOPLIST.contains candidate then extractPatternLoop words wc
    else candidate

/-- Embeds `extract_pattern`. -/
def extract_pattern (value : String) (maxWords : Nat) : String :=
  let normalized := normalize_text value
  if normalized = "" then ""
  else
    match LEARNING_SPECIAL_PATTERNS.find? (fun t => strHasSub normalized t) with
    | some t => t
    | none =>
      let words := splitWs normalized.toList
      if words.isEmpty then ""
      else extractPatternLoop words (min maxWords words.length)

/-- Embeds `derive_tags`. -/
def derive_tags (description : String) : List String :=
  let normalized := normalize_description description
  (TAG_KEYWORDS.filter (fun kt => strHasSub normalized kt.1)).map (fun kt => kt.2)

/-! Category-name resolution and the keyword heuristic table. -/

/-- Lookup in the dict comprehension of `pick_existing_category`; with
duplicate normalized keys the later entry wins, as in a Python dict build. -/
def availLookup (avail : List String) (key : String) : Option String :=
  (avail.filter (fun n => normalize_description n = key)).getLast?

/-- Embeds `pick_existing_category` (the `available_categories` argument is a
list; Python's `None` and the empty list behave identically in the source). -/
def pick_existing_category (preferred : String) (avail : List String)
    (fallback : String) : String :=
  if preferred = "" ∧ fallback = "" then ""
  else if avail.isEmpty then
    (if preferred ≠ "" then preferred else if fallback ≠ "" then fallback else "")
  else
    let tryChoice := fun (choice : String) =>
      if choice = "" then none else availLookup avail (normalize_description choice)
    match tryChoice preferred with
    | some found => found
    | none =>
      match tryChoice fallback with
      | some found => found
      | none => ""

/-- Embeds `map_category_name`. -/
def map_category_name (raw : String) : String :=
  let cleaned := pyStrip raw
  if cleaned = "" then ""
  else if DEFAULT_CATEGORIES.contains cleaned then cleaned
  else
    match LEGACY_CATEGORY_MAPPING.find?
        (fun kv => kv.1 = normalize_description cleaned) with
    | some kv => kv.2
    | none => cleaned

/-- Embeds `infer_category` (the keyword heuristic table). -/
def infer_category (description raw : String) (avail : List String) : String :=
  let mapped := map_category_name raw
  let nd := normalize_description description
  if mapped ≠ "" then
    let p := pick_existing_category mapped avail ""
    if p ≠ "" then p else mapped
  else if PAYMENT_KEYWORDS.any (fun k => strHasSub nd k) then
    pick_existing_category "Credit Card Payments" avail "Transfers"
  else if PERSONAL_KEYWORDS.any (fun k => strHasSub nd k) then
    pick_existing_category "Personal" avail ""
  else if strHasSub nd "apple online store" ∨ strHasSub nd "apple store" then
    pick_existing_category "Electronics" avail "General Shopping"
  else if strHasSub nd "ikea" then
    pick_existing_category "Furniture & Appliances" avail "General Shopping"
  else if strHasSub nd "costco" ∧ pick_existing_category "Groceries" avail "" ≠ "" then
    pick_existing_category "Groceries" avail ""
  else
    match MERCHANT_RULES.find? (fun ck => ck.2.any (fun k => strHasSub nd k)) with
    | some ck => pick_existing_category ck.1 avail ""
    | none =>
      if TRANSFER_KEYWORDS.any (fun k => strHasSub nd k) then
        pick_existing_category "Transfers" avail ""
      else ""

/-- Embeds `is_transfer_transaction`. -/
def is_transfer_transaction (description categoryName : String) : Bool :=
  let nc := normalize_description categoryName
  if nc = "transfers" ∨ nc = "credit card payments" then true
  else if nc ≠ "" then false
  else
    let nd := normalize_description description
    (TRANSFER_KEYWORDS ++ PAYMENT_KEYWORDS).any (fun k => strHasSub nd k)

/-! Date parsing (`parse_transaction_date`) and ISO formatting. -/

structure ParsedDate where
  year : Nat
  month : Nat
  day : Nat
deriving DecidableEq, Repr

def isLeapYear (y : Nat) : Bool := (y % 4 = 0 && y % 100 ≠ 0) || y % 400 = 0

def daysInMonth (y m : Nat) : Nat :=
  if m = 2 then (if isLeapYear y then 29 else 28)
  else if m = 4 ∨ m = 6 ∨ m = 9 ∨ m = 11 then 30
  else 31

def mkValidDate (y m d : Nat) : Option ParsedDate :=
  if 1 ≤ m ∧ m ≤ 12 ∧ 1 ≤ d ∧ d ≤ daysInMonth y m ∧ 1 ≤ y ∧ y ≤ 9999 then
    some ⟨y, m, d⟩
  else none

/-- Split a character list on a separator character, keeping empty pieces. -/
def splitOnChar (sep : Char) : List Char → List (List Char)
  | [] => [[]]
  | c :: rest =>
    let parts := splitOnChar sep rest
    if c = sep then [] :: parts
    else
      match parts with
      | [] => [[c]]
      | p :: ps => (c :: p) :: ps

/-- A 1-or-2-digit numeric field (strptime `%m`, `%d`, `%y`). -/
def parseField2 (l : List Char) : Option Nat :=
  if (l.length = 1 ∨ l.length = 2) ∧ l.all Char.isDigit then some (digitsVal l)
  else none

/-- A 1-to-4-digit year field (strptime `%Y`). -/
def parseField4 (l : List Char) : Option Nat :=
  if 1 ≤ l.length ∧ l.length ≤ 4 ∧ l.all Char.isDigit then some (digitsVal l)
  else none

/-- Two-digit-year pivot of strptime `%y`: 0-68 maps into the 2000s, 69-99
into the 1900s. -/
def expandYear2 (y : Nat) : Nat := if y ≤ 68 then 2000 + y else 1900 + y

def parseIsoDate (l : List Char) : Option ParsedDate :=
  match splitOnChar '-' l with
  | [ys, ms, ds] => do
    let y ← parseField4 ys
    let m ← parseField2 ms
    let d ← parseField2 ds
    mkValidDate y m d
  | _ => none

def parseSlashDate (dayFirst : Bool) (twoDigitYear : Bool) (l : List Char) :
    Option ParsedDate :=
  match splitOnChar '/' l with
  | [as, bs, ys] => do
    let a ← parseField2 as
    let b ← parseField2 bs
    let y ← if twoDigitYear then (parseField2 ys).map expandYear2 else parseField4 ys
    if dayFirst then mkValidDate y b a else mkValidDate y a b
  | _ => none

def MONTH_ABBREVS : List String :=
  ["jan", "feb", "mar", "apr", "may", "jun", "jul", "aug", "sep", "oct",
   "nov", "dec"]

def MONTH_NAMES : List String :=
  ["january", "february", "march", "april", "may", "june", "july", "august",
   "september", "october", "november", "december"]

/-- Month-name formats `%d %b %Y` and `%d %B %Y` (strptime matches month
names case-insensitively). -/
def parseDayMonthName (names : List String) (l : List Char) : Option ParsedDate :=
  match splitWs l with
  | [ds, mons, ys] => do
    let d ← parseField2 ds.toList
    let m ← (names.indexOf? (pyLower mons)).map (· + 1)
    let y ← parseField4 ys.toList
    mkValidDate y m d
  | _ => none

/-- Embeds `parse_transaction_date`: strip, remove periods, then try the fixed
format list in order, first success wins. -/
def parse_transaction_date (value : String) : Option ParsedDate :=
  let cleaned := stripChars isSpaceChar value.toList
  if cleaned.isEmpty then none
  else
    let cleaned := cleaned.filter (fun c => c ≠ '.')
    (parseIsoDate cleaned) <|>
    (parseSlashDate false false cleaned) <|>
    (parseSlashDate false true cleaned) <|>
    (parseSlashDate true false cleaned) <|>
    (parseSlashDate true true cleaned) <|>
    (parseDayMonthName MONTH_ABBREVS cleaned) <|>
    (parseDayMonthName MONTH_NAMES cleaned)

/-- Zero-padded decimal rendering. -/
def padNum (width n : Nat) : String :=
  let s := toString n
  String.mk (List.replicate (width - s.length) '0') ++ s

/-- Python `date.isoformat()`. -/
def isoDateString (d : ParsedDate) : String :=
  padNum 4 d.year ++ "-" ++ padNum 2 d.month ++ "-" ++ padNum 2 d.day

/-! Embedded-amount extraction (`extract_embedded_amount`), a direct model of
the regex search for `(?<!\d)([-+]?\d[\d,]*\.\d{1,2})(?!\d)`. -/

/-- Match `\.\d{1,2}(?!\d)` at the head of the list, greedy on the digit
count; returns the number of characters consumed. -/
def fracLen : List Char → Option Nat
  | '.' :: d1 :: rest =>
    if ¬d1.isDigit then none
    else
      match rest with
      | [] => some 2
      | d2 :: rest2 =>
        if d2.isDigit then
          match rest2 with
          | [] => some 3
          | c :: _ => if c.isDigit then none else some 3
        else some 2
  | _ => none

/-- Match `[\d,]*\.\d{1,2}(?!\d)` at the head of the list. The fractional part
must start with a point, which the `[\d,]` class excludes, so the only viable
backtracking stop for the greedy run is its maximal extent. -/
def matchRunFrac (l : List Char) : Option Nat :=
  let run := l.takeWhile (fun c => c.isDigit ∨ c = ',')
  (fracLen (l.drop run.length)).map (fun n => run.length + n)

/-- Match the full embedded-amount regex at one position; `prev` is the
character before the position for the `(?<!\d)` lookbehind. -/
def embMatchAt (prev : Option Char) (l : List Char) : Option Nat :=
  if (prev.map Char.isDigit).getD false then none
  else
    let signAndRest : Nat × List Char :=
      match l with
      | '+' :: r => (1, r)
      | '-' :: r => (1, r)
      | _ => (0, l)
    match signAndRest.2 with
    | [] => none
    | d :: tail =>
      if d.isDigit then (matchRunFrac tail).map (fun n => signAndRest.1 + 1 + n)
      else none

/-- Leftmost regex match, as `re.search`: returns start position and length. -/
def embSearchAux : List Char → Option Char → Nat → Option (Nat × Nat)
  | [], prev, pos => (embMatchAt prev []).map (fun n => (pos, n))
  | c :: rest, prev, pos =>
    match embMatchAt prev (c :: rest) with
    | some n => some (pos, n)
    | none => embSearchAux rest (some c) (pos + 1)

/-- Embeds `extract_embedded_amount`: find the first embedded decimal amount,
parse it, and return it together with the description with the number removed
and the seam re-collapsed. -/
def extract_embedded_amount (description : String) : Option ℚ × String :=
  let text := pyStrip description
  match embSearchAux text.toList none 0 with
  | none => (none, text)
  | some (start, len) =>
    let matched := String.mk ((text.toList.drop start).take len)
    match parse_money matched with
    | none => (none, text)
    | some amount =>
      let cleaned := text.toList.take start ++ [' '] ++ text.toList.drop (start + len)
      let cleaned := collapseWs cleaned
      (some amount,
       String.mk (stripChars (fun c => c = ' ' ∨ c = '-' ∨ c = '\t') cleaned))

/-! Settlement ledger (`_fetch_settlement_expense_totals`,
`_fetch_repayment_totals`, `calculate_settlement_ledger`). An expense row is
the join of an `expenses` row with its optional `categories` row; the SQL
`COALESCE(c.name, '')` is `(categoryName.getD "")`. -/

structure Expense where
  householdId : Nat
  date : String
  amount : ℚ
  categoryName : Option String
  isTransfer : Bool
  isPersonal : Bool
  paidBy : String
deriving DecidableEq, Repr

structure Repayment where
  householdId : Nat
  date : String
  fromPerson : String
  toPerson : String
  amount : ℚ
deriving DecidableEq, Repr

/-- Period selection: the three WHERE shapes the settlement queries build
(start/end range, strict before-cutoff, and `date LIKE 'YYYY-MM%'`). -/
inductive PeriodSel where
  | range (startDate endDate : Option String)
  | before (cutoff : String)
  | monthPrefix (p : String)
deriving DecidableEq, Repr

/-- Strict lexicographic order on character lists, matching SQLite's bytewise
text comparison on the ASCII date strings used here. -/
def listLtChars : List Char → List Char → Bool
  | [], [] => false
  | [], _ :: _ => true
  | _ :: _, [] => false
  | a :: as, b :: bs =>
    if a.toNat < b.toNat then true
    else if a = b then listLtChars as bs
    else false

def strLt (a b : String) : Bool := listLtChars a.toList b.toList

def strLe (a b : String) : Bool := a = b || strLt a b

def dateMatches (sel : PeriodSel) (d : String) : Bool :=
  match sel with
  | .range s e =>
    (match s with | some v => strLe v d | none => true) &&
    (match e with | some v => strLe d v | none => true)
  | .before c => strLt d c
  | .monthPrefix p => listStartsWith p.toList d.toList

/-- WHERE clause shared by the settlement expense queries:
household, `is_transfer = 0`, `is_personal = 0`, `amount < 0`, date filter. -/
def settlementRowMatches (hh : Nat) (sel : PeriodSel) (e : Expense) : Bool :=
  e.householdId = hh && e.isTransfer = false && e.isPersonal = false &&
  decide (e.amount < 0) && dateMatches sel e.date

def qualifyingRows (db : List Expense) (hh : Nat) (sel : PeriodSel) :
    List Expense :=
  db.filter (settlementRowMatches hh sel)

def isPetExpense (e : Expense) : Bool :=
  PET_CATEGORIES.contains (e.categoryName.getD "")

def sumAbsAmounts (rows : List Expense) : ℚ :=
  (rows.map (fun e => |e.amount|)).sum

def dkPaidSharedRaw (db : List Expense) (hh : Nat) (sel : PeriodSel) : ℚ :=
  sumAbsAmounts ((qualifyingRows db hh sel).filter
    (fun e => ¬isPetExpense e ∧ e.paidBy = "DK"))

def yzPaidSharedRaw (db : List Expense) (hh : Nat) (sel : PeriodSel) : ℚ :=
  sumAbsAmounts ((qualifyingRows db hh sel).filter
    (fun e => ¬isPetExpense e ∧ e.paidBy = "YZ"))

def petPaidByDkRaw (db : List Expense) (hh : Nat) (sel : PeriodSel) : ℚ :=
  sumAbsAmounts ((qualifyingRows db hh sel).filter
    (fun e => isPetExpense e ∧ e.paidBy = "DK"))

def petPaidByYzRaw (db : List Expense) (hh : Nat) (sel : PeriodSel) : ℚ :=
  sumAbsAmounts ((qualifyingRows db hh sel).filter
    (fun e => isPetExpense e ∧ e.paidBy = "YZ"))

def totalSharedRaw (db : List Expense) (hh : Nat) (sel : PeriodSel) : ℚ :=
  sumAbsAmounts ((qualifyingRows db hh sel).filter (fun e => ¬isPetExpense e))

def totalSettlementExpensesRaw (db : List Expense) (hh : Nat) (sel : PeriodSel) : ℚ :=
  sumAbsAmounts (qualifyingRows db hh sel)

structure SettlementTotals where
  dk_paid_shared : ℚ
  yz_paid_shared : ℚ
  total_shared : ℚ
  each_share : ℚ
  shared_delta : ℚ
  pet_paid_by_dk : ℚ
  pet_paid_by_yz : ℚ
  pet_delta : ℚ
  period_net_delta : ℚ
  total_settlement_expenses : ℚ
deriving DecidableEq, Repr

/-- Embeds `_fetch_settlement_expense_totals` (and the identical computation
of `_fetch_settlement_expense_totals_like_month`, reached through the
`PeriodSel.monthPrefix` selector). -/
def fetch_settlement_expense_totals (db : List Expense) (hh : Nat)
    (sel : PeriodSel) : SettlementTotals :=
  let dk := dkPaidSharedRaw db hh sel
  let yz := yzPaidSharedRaw db hh sel
  let total := totalSharedRaw db hh sel
  let eachShare := round2 (total / 2)
  let sharedDelta := round2 (dk - eachShare)
  let petDk := petPaidByDkRaw db hh sel
  let petYz := petPaidByYzRaw db hh sel
  let petDelta := round2 petDk
  { dk_paid_shared := round2 dk
    yz_paid_shared := round2 yz
    total_shared := round2 total
    each_share := eachShare
    shared_delta := sharedDelta
    pet_paid_by_dk := round2 petDk
    pet_paid_by_yz := round2 petYz
    pet_delta := petDelta
    period_net_delta := round2 (sharedDelta + petDelta)
    total_settlement_expenses := round2 (totalSettlementExpensesRaw db hh sel) }

def repayDkToYzRaw (reps : List Repayment) (hh : Nat) (sel : PeriodSel) : ℚ :=
  ((reps.filter (fun r => r.householdId = hh && dateMatches sel r.date &&
    r.fromPerson = "DK" && r.toPerson = "YZ")).map (fun r => r.amount)).sum

def repayYzToDkRaw (reps : List Repayment) (hh : Nat) (sel : PeriodSel) : ℚ :=
  ((reps.filter (fun r => r.householdId = hh && dateMatches sel r.date &&
    r.fromPerson = "YZ" && r.toPerson = "DK")).map (fun r => r.amount)).sum

structure RepaymentTotals where
  repayments_dk_to_yz : ℚ
  repayments_yz_to_dk : ℚ
  repayment_effect : ℚ
deriving DecidableEq, Repr

/-- Embeds `_fetch_repayment_totals` (and `_fetch_repayments_for_month`
through the `PeriodSel.monthPrefix` selector). -/
def fetch_repayment_totals (reps : List Repayment) (hh : Nat)
    (sel : PeriodSel) : RepaymentTotals :=
  let dkToYz := round2 (repayDkToYzRaw reps hh sel)
  let yzToDk := round2 (repayYzToDkRaw reps hh sel)
  { repayments_dk_to_yz := dkToYz
    repayments_yz_to_dk := yzToDk
    repayment_effect := round2 (dkToYz - yzToDk) }

/-- Dashboard filter triple; empty string means the filter is unset, as in
the source's falsy-string checks. -/
structure DashboardFilters where
  selectedMonth : String
  startDate : String
  endDate : String
deriving DecidableEq, Repr

def optOfFilter (s : String) : Option String := if s = "" then none else some s

/-- Embeds `get_period_start_for_opening`. -/
def get_period_start_for_opening (f : DashboardFilters) : Option String :=
  if f.startDate ≠ "" then some f.startDate
  else if f.selectedMonth ≠ "" then some (f.selectedMonth ++ "-01")
  else none

structure LedgerResult where
  totals : SettlementTotals
  repayments : RepaymentTotals
  opening_balance : ℚ
  closing_balance : ℚ
  dk_owes_now : ℚ
  yz_owes_now : ℚ
deriving DecidableEq, Repr

/-- Embeds `calculate_settlement_ledger`. -/
def calculate_settlement_ledger (db : List Expense) (reps : List Repayment)
    (hh : Nat) (f : DashboardFilters) : LedgerResult :=
  let period :=
    if f.startDate ≠ "" ∨ f.endDate ≠ "" then
      fetch_settlement_expense_totals db hh
        (.range (optOfFilter f.startDate) (optOfFilter f.endDate))
    else fetch_settlement_expense_totals db hh (.range none none)
  let useMonth := f.selectedMonth ≠ "" ∧ f.startDate = "" ∧ f.endDate = ""
  let period :=
    if useMonth then
      fetch_settlement_expense_totals db hh (.monthPrefix f.selectedMonth)
    else period
  let repaymentsPeriod :=
    if useMonth then fetch_repayment_totals reps hh (.monthPrefix f.selectedMonth)
    else fetch_repayment_totals reps hh
      (.range (optOfFilter f.startDate) (optOfFilter f.endDate))
  let openingBalance :=
    match get_period_start_for_opening f with
    | some cutoff =>
      round2 ((fetch_settlement_expense_totals db hh (.before cutoff)).period_net_delta
        + (fetch_repayment_totals reps hh (.before cutoff)).repayment_effect)
    | none => (0 : ℚ)
  let closingBalance :=
    round2 (openingBalance + period.period_net_delta + repaymentsPeriod.repayment_effect)
  { totals := period
    repayments := repaymentsPeriod
    opening_balance := openingBalance
    closing_balance := closingBalance
    dk_owes_now := round2 (max 0 (-closingBalance))
    yz_owes_now := round2 (max 0 closingBalance) }

/-- Modelled from the spec: the missing-paid-by warning count is rendered by
the dashboard template, which is not under src/. Following the spec, it counts
the qualifying spending rows (shared-eligible or pet-subset, i.e. household
match, not transfer, not personal, negative amount, inside the period) whose
`paid_by` is null or blank. -/
def missingPaidByCount (db : List Expense) (hh : Nat) (sel : PeriodSel) : Nat :=
  ((qualifyingRows db hh sel).filter (fun e => pyStrip e.paidBy = "")).length

/-! Helper lemmas about the settlement computation, shared by several
claims. -/

/-- With all dashboard filters unset the ledger reduces to the unfiltered
totals with opening balance zero. -/
theorem ledger_no_filter (db : List Expense) (reps : List Repayment) (hh : Nat) :
    calculate_settlement_ledger db reps hh ⟨"", "", ""⟩ =
    { totals := fetch_settlement_expense_totals db hh (.range none none)
      repayments := fetch_repayment_totals reps hh (.range none none)
      opening_balance := 0
      closing_balance := round2 (0 +
        (fetch_settlement_expense_totals db hh (.range none none)).period_net_delta +
        (fetch_repayment_totals reps hh (.range none none)).repayment_effect)
      dk_owes_now := round2 (max 0 (-(round2 (0 +
        (fetch_settlement_expense_totals db hh (.range none none)).period_net_delta +
        (fetch_repayment_totals reps hh (.range none none)).repayment_effect))))
      yz_owes_now := round2 (max 0 (round2 (0 +
        (fetch_settlement_expense_totals db hh (.range none none)).period_net_delta +
        (fetch_repayment_totals reps hh (.range none none)).repayment_effect))) } := by
  simp [calculate_settlement_ledger, get_period_start_for_opening, optOfFilter]

theorem period_net_delta_formula (db : List Expense) (hh : Nat) (sel : PeriodSel) :
    (fetch_settlement_expense_totals db hh sel).period_net_delta =
    round2 (round2 (dkPaidSharedRaw db hh sel - round2 (totalSharedRaw db hh sel / 2))
      + round2 (petPaidByDkRaw db hh sel)) := by
  simp [fetch_settlement_expense_totals]

theorem repayment_effect_formula (reps : List Repayment) (hh : Nat) (sel : PeriodSel) :
    (fetch_repayment_totals reps hh sel).repayment_effect =
    round2 (round2 (repayDkToYzRaw reps hh sel) - round2 (repayYzToDkRaw reps hh sel)) := by
  simp [fetch_repayment_totals]

theorem qualifying_cons_pos {hh : Nat} {sel : PeriodSel} {e : Expense}
    (db : List Expense) (h : settlementRowMatches hh sel e = true) :
    qualifyingRows (e :: db) hh sel = e :: qualifyingRows db hh sel := by
  simp [qualifyingRows, List.filter, h]

/-! Claim C1: settlement direction for DK $70 / YZ $130 shared spending. -/

/-- Concrete household used to settle claim C1: only shared qualifying
spending, DK paid $70 and YZ paid $130, no repayments, no prior history. -/
def c1Db : List Expense :=
  [⟨1, "2026-02-02", -70, some "Groceries", false, false, "DK"⟩,
   ⟨1, "2026-02-03", -130, some "Groceries", false, false, "YZ"⟩]

/-- C1 counterexample: with only shared spending of which DK paid $70 and YZ
paid $130 and no repayments, the ledger computes closing balance -30, so it is
DK who owes YZ $30.00 (`dk_owes_now = 30`, `yz_owes_now = 0`), not the other
way around as the claim states. -/
theorem c1_counterexample :
    (calculate_settlement_ledger c1Db [] 1 ⟨"", "", ""⟩).yz_owes_now = 0 ∧
    (calculate_settlement_ledger c1Db [] 1 ⟨"", "", ""⟩).dk_owes_now = 30 ∧
    ¬((calculate_settlement_ledger c1Db [] 1 ⟨"", "", ""⟩).yz_owes_now = 30 ∧
      (calculate_settlement_ledger c1Db [] 1 ⟨"", "", ""⟩).dk_owes_now = 0) := by
  with_unfolding_all decide

/-- C1 amended: for a period containing only shared (non-pet, non-personal,
non-transfer) spending of which DK paid $70 and YZ paid $130, with no recorded
repayments and no prior history, the settlement ledger reports that DK owes YZ
$30.00 (`dk_owes_now = 30.00` and `yz_owes_now = 0`). -/
theorem c1_settlement_direction (db : List Expense) (reps : List Repayment)
    (hh : Nat)
    (hdk : dkPaidSharedRaw db hh (.range none none) = 70)
    (hyz : yzPaidSharedRaw db hh (.range none none) = 130)
    (htot : totalSharedRaw db hh (.range none none) = 200)
    (hpet : petPaidByDkRaw db hh (.range none none) = 0)
    (hr1 : repayDkToYzRaw reps hh (.range none none) = 0)
    (hr2 : repayYzToDkRaw reps hh (.range none none) = 0) :
    (calculate_settlement_ledger db reps hh ⟨"", "", ""⟩).dk_owes_now = 30 ∧
    (calculate_settlement_ledger db reps hh ⟨"", "", ""⟩).yz_owes_now = 0 := by
  rw [ledger_no_filter]
  simp only [period_net_delta_formula, repayment_effect_formula,
    hdk, hyz, htot, hpet, hr1, hr2]
  refine ⟨?_, ?_⟩ <;> with_unfolding_all decide

/-- C1 witness: the amended theorem applied to the concrete two-expense
household. -/
theorem c1_settlement_direction_witness :
    (calculate_settlement_ledger c1Db [] 1 ⟨"", "", ""⟩).dk_owes_now = 30 ∧
    (calculate_settlement_ledger c1Db [] 1 ⟨"", "", ""⟩).yz_owes_now = 0 :=
  c1_settlement_direction c1Db [] 1 (by with_unfolding_all decide)
    (by with_unfolding_all decide) (by with_unfolding_all decide)
    (by with_unfolding_all decide) (by with_unfolding_all decide)
    (by with_unfolding_all decide)

/-! Claim C2: pet-subset spending and the settlement delta. -/

/-- Concrete household used to settle claim C2: a single pet-subset expense of
$60 paid entirely by YZ. -/
def c2Db : List Expense :=
  [⟨1, "2026-01-03", -60, some "Pet Food & Care", false, false, "YZ"⟩]

/-- C2 counterexample: for a period whose only spending is a $60 pet-subset
expense paid by YZ, the computed period net delta is 0 and DK owes nothing, so
a YZ-paid pet amount is not owed back to YZ; the claimed symmetry with DK-paid
pet amounts (which would yield a delta of 60 in the payer's favor, as the
DK-paid variant of the same household shows) fails. -/
theorem c2_counterexample :
    (calculate_settlement_ledger c2Db [] 1 ⟨"", "", ""⟩).totals.pet_paid_by_yz = 60 ∧
    (calculate_settlement_ledger c2Db [] 1 ⟨"", "", ""⟩).totals.period_net_delta = 0 ∧
    (calculate_settlement_ledger c2Db [] 1 ⟨"", "", ""⟩).dk_owes_now = 0 ∧
    (calculate_settlement_ledger
      [⟨1, "2026-01-03", -60, some "Pet Food & Care", false, false, "DK"⟩]
      [] 1 ⟨"", "", ""⟩).totals.period_net_delta = 60 := by
  with_unfolding_all decide

theorem sumAbsAmounts_cons (e : Expense) (l : List Expense) :
    sumAbsAmounts (e :: l) = |e.amount| + sumAbsAmounts l := by
  simp [sumAbsAmounts]

/-- C2 amended: the pet delta equals the rounded sum of DK-paid pet amounts
only, and a pet-subset expense paid by YZ contributes nothing to the shared
delta, the pet delta or the period net delta — it is recorded in
`pet_paid_by_yz` but never reimbursed. -/
theorem c2_pet_delta_dk_only (db : List Expense) (hh : Nat) (sel : PeriodSel)
    (e : Expense) (hmatch : settlementRowMatches hh sel e = true)
    (hpet : isPetExpense e = true) (hyz : e.paidBy = "YZ") :
    (fetch_settlement_expense_totals db hh sel).pet_delta =
      round2 (petPaidByDkRaw db hh sel) ∧
    (fetch_settlement_expense_totals (e :: db) hh sel).pet_paid_by_yz =
      round2 (|e.amount| + petPaidByYzRaw db hh sel) ∧
    (fetch_settlement_expense_totals (e :: db) hh sel).shared_delta =
      (fetch_settlement_expense_totals db hh sel).shared_delta ∧
    (fetch_settlement_expense_totals (e :: db) hh sel).pet_delta =
      (fetch_settlement_expense_totals db hh sel).pet_delta ∧
    (fetch_settlement_expense_totals (e :: db) hh sel).period_net_delta =
      (fetch_settlement_expense_totals db hh sel).period_net_delta := by
  have hq := qualifying_cons_pos db hmatch
  have hyzdk : e.paidBy = "DK" ↔ False := by
    rw [hyz]; simp
  have hdk : dkPaidSharedRaw (e :: db) hh sel = dkPaidSharedRaw db hh sel := by
    simp [dkPaidSharedRaw, hq, List.filter, hpet]
  have hsh : totalSharedRaw (e :: db) hh sel = totalSharedRaw db hh sel := by
    simp [totalSharedRaw, hq, List.filter, hpet]
  have hpd : petPaidByDkRaw (e :: db) hh sel = petPaidByDkRaw db hh sel := by
    simp [petPaidByDkRaw, hq, List.filter, hpet, hyz]
  have hpy : petPaidByYzRaw (e :: db) hh sel =
      |e.amount| + petPaidByYzRaw db hh sel := by
    simp [petPaidByYzRaw, hq, List.filter, hpet, hyz, sumAbsAmounts_cons]
  refine ⟨?_, ?_, ?_, ?_, ?_⟩ <;>
    simp [fetch_settlement_expense_totals, hdk, hsh, hpd, hpy]

/-- C2 witness: the amended theorem applied to a YZ-paid pet expense on top of
the concrete C1 household. -/
theorem c2_pet_delta_dk_only_witness :
    (fetch_settlement_expense_totals c1Db 1 (.range none none)).pet_delta =
      round2 (petPaidByDkRaw c1Db 1 (.range none none)) ∧
    (fetch_settlement_expense_totals
        (⟨1, "2026-01-03", -60, some "Pet Food & Care", false, false, "YZ"⟩ :: c1Db)
        1 (.range none none)).pet_paid_by_yz =
      round2 (|(⟨1, "2026-01-03", -60, some "Pet Food & Care", false, false, "YZ"⟩ :
        Expense).amount| + petPaidByYzRaw c1Db 1 (.range none none)) ∧
    (fetch_settlement_expense_totals
        (⟨1, "2026-01-03", -60, some "Pet Food & Care", false, false, "YZ"⟩ :: c1Db)
        1 (.range none none)).shared_delta =
      (fetch_settlement_expense_totals c1Db 1 (.range none none)).shared_delta ∧
    (fetch_settlement_expense_totals
        (⟨1, "2026-01-03", -60, some "Pet Food & Care", false, false, "YZ"⟩ :: c1Db)
        1 (.range none none)).pet_delta =
      (fetch_settlement_expense_totals c1Db 1 (.range none none)).pet_delta ∧
    (fetch_settlement_expense_totals
        (⟨1, "2026-01-03", -60, some "Pet Food & Care", false, false, "YZ"⟩ :: c1Db)
        1 (.range none none)).period_net_delta =
      (fetch_settlement_expense_totals c1Db 1 (.range none none)).period_net_delta :=
  c2_pet_delta_dk_only c1Db 1 (.range none none) _
    (by with_unfolding_all decide) (by with_unfolding_all decide)
    (by with_unfolding_all decide)

/-! Claim C3: blank-paid-by spending rows in the settlement sums and the
missing-paid-by warning count. -/

/-- Concrete household used to settle claim C3: a single qualifying Groceries
expense of $10 whose `paid_by` is blank. -/
def c3Db : List Expense :=
  [⟨1, "2026-04-02", -10, some "Groceries", false, false, ""⟩]

/-- C3 counterexample: a qualifying spending row with a blank `paid_by` is not
excluded from all settlement sums — it still enters the combined shared total
(here $10), which halves into each fair share and moves the balance
(`dk_owes_now = 5`), contradicting the claimed exclusion. -/
theorem c3_counterexample :
    (calculate_settlement_ledger c3Db [] 1 ⟨"", "", ""⟩).totals.total_shared = 10 ∧
    ¬(calculate_settlement_ledger c3Db [] 1 ⟨"", "", ""⟩).totals.total_shared = 0 ∧
    (calculate_settlement_ledger c3Db [] 1 ⟨"", "", ""⟩).dk_owes_now = 5 ∧
    missingPaidByCount c3Db 1 (.range none none) = 1 := by
  with_unfolding_all decide

/-- C3 amended: a qualifying spending row with a null/blank `paid_by` is
excluded from the per-party sums (`dk_paid_shared`, `yz_paid_shared`,
`pet_paid_by_dk`, `pet_paid_by_yz`) and counted by the missing-paid-by warning
count (modelled from the spec, as the count lives in the dashboard template
outside src/), but it still enters the combined shared total used to compute
each party's fair share. -/
theorem c3_blank_paid_by (db : List Expense) (hh : Nat) (sel : PeriodSel)
    (e : Expense) (hmatch : settlementRowMatches hh sel e = true)
    (hblank : pyStrip e.paidBy = "") :
    dkPaidSharedRaw (e :: db) hh sel = dkPaidSharedRaw db hh sel ∧
    yzPaidSharedRaw (e :: db) hh sel = yzPaidSharedRaw db hh sel ∧
    petPaidByDkRaw (e :: db) hh sel = petPaidByDkRaw db hh sel ∧
    petPaidByYzRaw (e :: db) hh sel = petPaidByYzRaw db hh sel ∧
    (isPetExpense e = false →
      totalSharedRaw (e :: db) hh sel = |e.amount| + totalSharedRaw db hh sel) ∧
    missingPaidByCount (e :: db) hh sel = missingPaidByCount db hh sel + 1 := by
  have hdkf : (e.paidBy = "DK") = False := eq_false (fun h => by
    rw [h] at hblank
    exact absurd hblank (by with_unfolding_all decide))
  have hyzf : (e.paidBy = "YZ") = False := eq_false (fun h => by
    rw [h] at hblank
    exact absurd hblank (by with_unfolding_all decide))
  have hq := qualifying_cons_pos db hmatch
  refine ⟨?_, ?_, ?_, ?_, ?_, ?_⟩
  · simp [dkPaidSharedRaw, hq, List.filter, hdkf]
  · simp [yzPaidSharedRaw, hq, List.filter, hyzf]
  · simp [petPaidByDkRaw, hq, List.filter, hdkf]
  · simp [petPaidByYzRaw, hq, List.filter, hyzf]
  · intro hnp
    simp [totalSharedRaw, hq, List.filter, hnp, sumAbsAmounts_cons]
  · simp [missingPaidByCount, hq, List.filter, hblank]

/-- C3 witness: the amended theorem applied to a blank-paid Groceries row on
top of the concrete C1 household. -/
theorem c3_blank_paid_by_witness :
    dkPaidSharedRaw (⟨1, "2026-04-02", -10, some "Groceries", false, false, ""⟩ :: c1Db)
        1 (.range none none) = dkPaidSharedRaw c1Db 1 (.range none none) ∧
    yzPaidSharedRaw (⟨1, "2026-04-02", -10, some "Groceries", false, false, ""⟩ :: c1Db)
        1 (.range none none) = yzPaidSharedRaw c1Db 1 (.range none none) ∧
    petPaidByDkRaw (⟨1, "2026-04-02", -10, some "Groceries", false, false, ""⟩ :: c1Db)
        1 (.range none none) = petPaidByDkRaw c1Db 1 (.range none none) ∧
    petPaidByYzRaw (⟨1, "2026-04-02", -10, some "Groceries", false, false, ""⟩ :: c1Db)
        1 (.range none none) = petPaidByYzRaw c1Db 1 (.range none none) ∧
    (isPetExpense (⟨1, "2026-04-02", -10, some "Groceries", false, false, ""⟩ : Expense) = false →
      totalSharedRaw (⟨1, "2026-04-02", -10, some "Groceries", false, false, ""⟩ :: c1Db)
        1 (.range none none) =
      |(⟨1, "2026-04-02", -10, some "Groceries", false, false, ""⟩ : Expense).amount| +
        totalSharedRaw c1Db 1 (.range none none)) ∧
    missingPaidByCount (⟨1, "2026-04-02", -10, some "Groceries", false, false, ""⟩ :: c1Db)
        1 (.range none none) = missingPaidByCount c1Db 1 (.range none none) + 1 :=
  c3_blank_paid_by c1Db 1 (.range none none) _
    (by with_unfolding_all decide) (by with_unfolding_all decide)

/-! Categorization engine: learned-rule store, `resolve_learned_category`,
`categorize_transaction`, `learn_rule`. -/

structure CategoryRule where
  id : Nat
  userId : Nat
  keyType : String
  pattern : String
  category : String
  priority : Int
  hits : Nat
  enabled : Bool
  source : String
deriving DecidableEq, Repr

structure Category where
  id : Nat
  userId : Nat
  name : String
deriving DecidableEq, Repr

structure AppConfig where
  enableLearningRules : Bool
  enableAiCategorization : Bool
deriving DecidableEq, Repr

/-- Strict preference of the exact-match query ordering
`ORDER BY priority ASC, hits DESC, id DESC`. -/
def exactRuleBefore (a b : CategoryRule) : Bool :=
  a.priority < b.priority ||
  (a.priority = b.priority && (b.hits < a.hits ||
    (a.hits = b.hits && b.id < a.id)))

/-- Strict preference of the prefix-fallback query ordering
`ORDER BY LENGTH(pattern) DESC, priority ASC, hits DESC` (ties are left to
the row order, as SQLite leaves them unspecified). -/
def prefixRuleBefore (a b : CategoryRule) : Bool :=
  b.pattern.length < a.pattern.length ||
  (a.pattern.length = b.pattern.length && (a.priority < b.priority ||
    (a.priority = b.priority && b.hits < a.hits)))

/-- First row of an ordered query: the minimum under `before`, keeping the
earlier list element on ties. -/
def pickBestRule (before : CategoryRule → CategoryRule → Bool) :
    List CategoryRule → Option CategoryRule
  | [] => none
  | r :: rest =>
    match pickBestRule before rest with
    | none => some r
    | some b => if before b r then some b else some r

/-- Embeds `resolve_learned_category`. Returns the resolved category together
with the rule store after the hit-count reinforcement; an empty string means
no rule resolved. The stored patterns contain no SQL wildcards, so the
`? LIKE pattern || '%'` fallback is a plain prefix test. -/
def resolve_learned_category (cfg : AppConfig) (rules : List CategoryRule)
    (userId : Nat) (keyType pattern : String) (avail : List String) :
    String × List CategoryRule :=
  if ¬cfg.enableLearningRules then ("", rules)
  else if pattern = "" then ("", rules)
  else
    let exact := rules.filter (fun r =>
      r.userId = userId ∧ r.keyType = keyType ∧ r.pattern = pattern ∧ r.enabled)
    let found :=
      match pickBestRule exactRuleBefore exact with
      | some r => some r
      | none =>
        pickBestRule prefixRuleBefore (rules.filter (fun r =>
          r.userId = userId ∧ r.keyType = keyType ∧
          listStartsWith r.pattern.toList pattern.toList ∧ r.enabled))
    match found with
    | none => ("", rules)
    | some r =>
      let category := pick_existing_category r.category avail ""
      if category = "" then ("", rules)
      else
        (category, rules.map (fun x =>
          if x.id = r.id then { x with hits := x.hits + 1 } else x))

/-- Embeds `ai_categorize_stub`: disabled extension point, always empty. -/
def ai_categorize_stub (_description _vendor : String) : String := ""

structure CategorizeResult where
  category : String
  confidence : Nat
  source : String
deriving DecidableEq, Repr

/-- Embeds `categorize_transaction`: the ordered first-match chain over
transfer detection, learned vendor rule, learned description rule,
keyword-vendor heuristic, keyword-description heuristic, optional AI stub and
the unknown fallback. Returns the result together with the rule store after
any hit reinforcement. -/
def categorize_transaction (cfg : AppConfig) (rules : List CategoryRule)
    (userId : Nat) (description vendor rawCategory : String)
    (avail : List String) : CategorizeResult × List CategoryRule :=
  if is_transfer_transaction description rawCategory then
    (⟨pick_existing_category "Credit Card Payments" avail "Transfers", 100,
      "transfer"⟩, rules)
  else
    let vendorPattern := extract_pattern
      (if vendor = "" then derive_vendor description else vendor) 4
    let rv := resolve_learned_category cfg rules userId "vendor" vendorPattern avail
    if rv.1 ≠ "" then (⟨rv.1, 95, "learned_vendor"⟩, rv.2)
    else
      let descPattern := extract_pattern description 3
      let rd := resolve_learned_category cfg rv.2 userId "description" descPattern avail
      if rd.1 ≠ "" then (⟨rd.1, 90, "learned_description"⟩, rd.2)
      else
        let kv := infer_category vendor rawCategory avail
        if kv ≠ "" then (⟨kv, 75, "keyword_vendor"⟩, rd.2)
        else
          let kd := infer_category description rawCategory avail
          if kd ≠ "" then (⟨kd, 65, "keyword_description"⟩, rd.2)
          else
            let ai := if cfg.enableAiCategorization then
                ai_categorize_stub description vendor
              else ""
            if ai ≠ "" then (⟨ai, 25, "unknown"⟩, rd.2)
            else (⟨"", 25, "unknown"⟩, rd.2)

/-- Fresh autoincrement id for a rule insert. -/
def nextRuleId (rules : List CategoryRule) : Nat :=
  (rules.map (fun r => r.id)).foldr max 0 + 1

/-- Key type selected by `learn_rule`: vendor when the extracted vendor
pattern (max 4 words) is non-empty, description otherwise. -/
def learnKeyType (vendor : String) : String :=
  if extract_pattern vendor 4 ≠ "" then "vendor" else "description"

/-- Pattern selected by `learn_rule`: the vendor pattern when non-empty, else
the description pattern (max 3 words). -/
def learnPattern (vendor description : String) : String :=
  if extract_pattern vendor 4 ≠ "" then extract_pattern vendor 4
  else extract_pattern description 3

/-- Embeds `learn_rule`: upsert of a learned rule keyed by
(user, key type, pattern), guarded by the transfer check and the
pattern-quality checks. Returns the updated rule store. -/
def learn_rule (cfg : AppConfig) (cats : List Category)
    (rules : List CategoryRule) (userId : Nat) (description vendor : String)
    (categoryId : Nat) (source : String) : List CategoryRule :=
  if ¬cfg.enableLearningRules then rules
  else
    match (cats.filter (fun c => c.id = categoryId ∧ c.userId = userId)).head? with
    | none => rules
    | some cat =>
      if is_transfer_transaction description cat.name then rules
      else if learnPattern vendor description = "" ∨
          LEARNING_STOPLIST.contains (learnPattern vendor description) ∨
          (learnPattern vendor description).length < 3 then
        rules
      else
        match (rules.filter (fun r =>
            r.userId = userId ∧ r.keyType = learnKeyType vendor ∧
            r.pattern = learnPattern vendor description)).head? with
        | some existing =>
          rules.map (fun r =>
            if r.id = existing.id then
              { r with category := cat.name, source := source, enabled := true }
            else r)
        | none =>
          rules ++ [⟨nextRuleId rules, userId, learnKeyType vendor,
            learnPattern vendor description, cat.name, 0, 0, true, source⟩]

/-! Claim C4: evaluation order and confidence/source contract of the
categorizer. -/

/-- C4: `categorize_transaction` tries transfer detection, learned vendor
rule, learned description rule, keyword-vendor heuristic, keyword-description
heuristic in that order and returns the first match with confidence/source
(100, transfer), (95, learned_vendor), (90, learned_description),
(75, keyword_vendor), (65, keyword_description); when nothing matches (for any
configuration, since the AI stub always returns empty) it returns an empty
category with confidence 25 and source unknown. The auxiliary variables `rv`,
`rd`, `kv`, `kd` are pinned to the corresponding stages by the equation
hypotheses. -/
theorem c4_first_match_chain (cfg : AppConfig) (rules : List CategoryRule)
    (userId : Nat) (description vendor rawCategory : String)
    (avail : List String) (rv rd : String × List CategoryRule) (kv kd : String)
    (hrv : rv = resolve_learned_category cfg rules userId "vendor"
      (extract_pattern (if vendor = "" then derive_vendor description else vendor) 4)
      avail)
    (hrd : rd = resolve_learned_category cfg rv.2 userId "description"
      (extract_pattern description 3) avail)
    (hkv : kv = infer_category vendor rawCategory avail)
    (hkd : kd = infer_category description rawCategory avail) :
    (is_transfer_transaction description rawCategory = true →
      (categorize_transaction cfg rules userId description vendor rawCategory avail).1 =
        ⟨pick_existing_category "Credit Card Payments" avail "Transfers", 100, "transfer"⟩) ∧
    (is_transfer_transaction description rawCategory = false → rv.1 ≠ "" →
      (categorize_transaction cfg rules userId description vendor rawCategory avail).1 =
        ⟨rv.1, 95, "learned_vendor"⟩) ∧
    (is_transfer_transaction description rawCategory = false → rv.1 = "" → rd.1 ≠ "" →
      (categorize_transaction cfg rules userId description vendor rawCategory avail).1 =
        ⟨rd.1, 90, "learned_description"⟩) ∧
    (is_transfer_transaction description rawCategory = false → rv.1 = "" → rd.1 = "" →
      kv ≠ "" →
      (categorize_transaction cfg rules userId description vendor rawCategory avail).1 =
        ⟨kv, 75, "keyword_vendor"⟩) ∧
    (is_transfer_transaction description rawCategory = false → rv.1 = "" → rd.1 = "" →
      kv = "" → kd ≠ "" →
      (categorize_transaction cfg rules userId description vendor rawCategory avail).1 =
        ⟨kd, 65, "keyword_description"⟩) ∧
    (is_transfer_transaction description rawCategory = false → rv.1 = "" → rd.1 = "" →
      kv = "" → kd = "" →
      (categorize_transaction cfg rules userId description vendor rawCategory avail).1 =
        ⟨"", 25, "unknown"⟩) := by
  subst hrv; subst hrd; subst hkv; subst hkd
  refine ⟨?_, ?_, ?_, ?_, ?_, ?_⟩
  · intro ht
    simp [categorize_transaction, ht]
  · intro ht h1
    simp [categorize_transaction, ht, h1]
  · intro ht h1 h2
    simp [categorize_transaction, ht, h1, h2]
  · intro ht h1 h2 h3
    simp [categorize_transaction, ht, h1, h2, h3]
  · intro ht h1 h2 h3 h4
    simp [categorize_transaction, ht, h1, h2, h3, h4]
  · intro ht h1 h2 h3 h4
    simp [categorize_transaction, ht, h1, h2, h3, h4, ai_categorize_stub]

/-- C4 witness: on a fresh rule store the description keyword heuristic is the
first matching stage for a Starbucks charge, giving (65, keyword_description). -/
theorem c4_first_match_chain_witness :
    (categorize_transaction ⟨true, false⟩ [] 1 "STARBUCKS COFFEE" "" ""
      ["Bakery & Coffee"]).1 = ⟨"Bakery & Coffee", 65, "keyword_description"⟩ := by
  have h := c4_first_match_chain ⟨true, false⟩ [] 1 "STARBUCKS COFFEE" "" ""
    ["Bakery & Coffee"] _ _ _ _ rfl rfl rfl rfl
  have h5 := h.2.2.2.2.1 (by with_unfolding_all decide)
    (by with_unfolding_all decide) (by with_unfolding_all decide)
    (by with_unfolding_all decide) (by with_unfolding_all decide)
  rw [h5]
  with_unfolding_all decide

/-! Claim C10: invariants of rules written by `learn_rule`. -/

/-- C10: every rule created or updated by `learn_rule` has a pattern of length
at least 3 that is not in the learning stop-word set, has key type vendor
exactly when the extracted vendor pattern is non-empty (else description), and
is written only when the transaction's description and target category do not
classify it as a transfer. Rule ids are assumed unique, as the store's primary
key guarantees. -/
theorem c10_learn_rule_invariant (cfg : AppConfig) (cats : List Category)
    (rules : List CategoryRule) (userId : Nat) (description vendor : String)
    (categoryId : Nat) (source : String) (r : CategoryRule)
    (hids : ∀ a ∈ rules, ∀ b ∈ rules, a.id = b.id → a = b)
    (hmem : r ∈ learn_rule cfg cats rules userId description vendor categoryId source)
    (hnew : r ∉ rules) :
    3 ≤ r.pattern.length ∧ ¬LEARNING_STOPLIST.contains r.pattern ∧
    ((extract_pattern vendor 4 ≠ "" ∧ r.keyType = "vendor" ∧
        r.pattern = extract_pattern vendor 4) ∨
      (extract_pattern vendor 4 = "" ∧ r.keyType = "description" ∧
        r.pattern = extract_pattern description 3)) ∧
    ∃ cat ∈ cats, cat.id = categoryId ∧ cat.userId = userId ∧
      is_transfer_transaction description cat.name = false := by
  have hkeysplit : ∀ (rr : CategoryRule),
      rr.keyType = learnKeyType vendor →
      rr.pattern = learnPattern vendor description →
      ((extract_pattern vendor 4 ≠ "" ∧ rr.keyType = "vendor" ∧
          rr.pattern = extract_pattern vendor 4) ∨
        (extract_pattern vendor 4 = "" ∧ rr.keyType = "description" ∧
          rr.pattern = extract_pattern description 3)) := by
    intro rr hk hp
    by_cases hv : extract_pattern vendor 4 ≠ ""
    · exact Or.inl ⟨hv, by rw [hk, learnKeyType, if_pos hv],
        by rw [hp, learnPattern, if_pos hv]⟩
    · push_neg at hv
      refine Or.inr ⟨hv, ?_, ?_⟩
      · rw [hk, learnKeyType, if_neg (by simpa using hv)]
      · rw [hp, learnPattern, if_neg (by simpa using hv)]
  unfold learn_rule at hmem
  split at hmem
  · exact absurd hmem hnew
  split at hmem
  · exact absurd hmem hnew
  next cat hcat =>
    have hcatmem : cat ∈ cats.filter
        (fun c => c.id = categoryId ∧ c.userId = userId) :=
      List.mem_of_mem_head? hcat
    have hcatin : cat ∈ cats := List.mem_of_mem_filter hcatmem
    have hcatp := List.of_mem_filter hcatmem
    simp only [decide_eq_true_eq] at hcatp
    split at hmem
    · exact absurd hmem hnew
    next htr =>
      split at hmem
      · exact absurd hmem hnew
      next hguard =>
        push_neg at hguard
        obtain ⟨hne, hstop, hlen⟩ := hguard
        have hcatgood : ∃ c ∈ cats, c.id = categoryId ∧ c.userId = userId ∧
            is_transfer_transaction description c.name = false :=
          ⟨cat, hcatin, hcatp.1, hcatp.2, by simpa using htr⟩
        split at hmem
        next existing hex =>
          have hexmem : existing ∈ rules.filter (fun x =>
              x.userId = userId ∧ x.keyType = learnKeyType vendor ∧
              x.pattern = learnPattern vendor description) :=
            List.mem_of_mem_head? hex
          have hexin : existing ∈ rules := List.mem_of_mem_filter hexmem
          have hexp := List.of_mem_filter hexmem
          simp only [decide_eq_true_eq] at hexp
          obtain ⟨x, hxin, hxeq⟩ := List.mem_map.mp hmem
          by_cases hid : x.id = existing.id
          · have hx : x = existing := hids x hxin existing hexin hid
            subst hx
            rw [if_pos hid] at hxeq
            subst hxeq
            refine ⟨?_, ?_, ?_, hcatgood⟩
            · simpa [hexp.2.2] using hlen
            · simpa [hexp.2.2] using hstop
            · exact hkeysplit _ hexp.2.1 hexp.2.2
          · rw [if_neg hid] at hxeq
            subst hxeq
            exact absurd hxin hnew
        next hex =>
          rw [List.mem_append] at hmem
          rcases hmem with hold | hnewr
          · exact absurd hold hnew
          · rw [List.mem_singleton] at hnewr
            subst hnewr
            refine ⟨by simpa using hlen, by simpa using hstop, ?_, hcatgood⟩
            exact hkeysplit _ rfl rfl

/-- C10 witness: learning a Groceries rule for a Metro Market purchase writes
a vendor rule satisfying the invariant. -/
theorem c10_learn_rule_invariant_witness :
    3 ≤ (CategoryRule.mk 1 1 "vendor" "metro market" "Groceries" 0 0 true
      "manual_edit").pattern.length ∧
    ¬LEARNING_STOPLIST.contains (CategoryRule.mk 1 1 "vendor" "metro market"
      "Groceries" 0 0 true "manual_edit").pattern ∧
    ((extract_pattern "Metro Market" 4 ≠ "" ∧
        (CategoryRule.mk 1 1 "vendor" "metro market" "Groceries" 0 0 true
          "manual_edit").keyType = "vendor" ∧
        (CategoryRule.mk 1 1 "vendor" "metro market" "Groceries" 0 0 true
          "manual_edit").pattern = extract_pattern "Metro Market" 4) ∨
      (extract_pattern "Metro Market" 4 = "" ∧
        (CategoryRule.mk 1 1 "vendor" "metro market" "Groceries" 0 0 true
          "manual_edit").keyType = "description" ∧
        (CategoryRule.mk 1 1 "vendor" "metro market" "Groceries" 0 0 true
          "manual_edit").pattern = extract_pattern "Metro Market 123" 3)) ∧
    ∃ cat ∈ [Category.mk 1 1 "Groceries"], cat.id = 1 ∧ cat.userId = 1 ∧
      is_transfer_transaction "Metro Market 123" cat.name = false :=
  c10_learn_rule_invariant ⟨true, false⟩ [Category.mk 1 1 "Groceries"] [] 1
    "Metro Market 123" "Metro Market" 1 "manual_edit"
    (CategoryRule.mk 1 1 "vendor" "metro market" "Groceries" 0 0 true "manual_edit")
    (by intro a ha; exact absurd ha (List.not_mem_nil a))
    (by with_unfolding_all decide)
    (by with_unfolding_all decide)

/-! Expense editing (`edit_expense`, POST branch) with its optimistic lock. -/

structure ExpenseRow where
  id : Nat
  userId : Nat
  householdId : Nat
  date : String
  amount : ℚ
  categoryId : Option Nat
  description : String
  vendor : String
  paidBy : String
  isTransfer : Bool
  isPersonal : Bool
  confidence : Nat
  source : String
  tags : List String
  updatedAt : Option String
deriving DecidableEq, Repr

structure EditForm where
  date : String
  amount : String
  paidBy : String
  categoryId : Option Nat
  description : String
  updatedAt : String
deriving DecidableEq, Repr

inductive EditOutcome where
  | notFound
  | invalidAmount
  | invalidPaidBy
  | conflict
  | updated
deriving DecidableEq, Repr

/-- Python `float()` on a form field (decimal fragment, see
`parseUnsignedDecimal`). -/
def pyFloat (s : String) : Option ℚ := parseFloatQ (stripChars isSpaceChar s.toList)

/-- WHERE clause of the edit UPDATE:
`id = ? AND household_id = ? AND COALESCE(updated_at, '') = ?`. -/
def editLockPred (expenseId householdId : Nat) (effective : String)
    (e : ExpenseRow) : Bool :=
  e.id = expenseId ∧ e.householdId = householdId ∧ e.updatedAt.getD "" = effective

/-- Embeds the POST branch of `edit_expense`. Returns the outcome, the
expenses table and the rule store after the operation. On an optimistic-lock
conflict the UPDATE matches zero rows and the transaction is rolled back, so
the expenses table is returned unchanged (hit-count reinforcements inside
`resolve_learned_category` were already committed by the source and are kept). -/
def edit_expense (cfg : AppConfig) (cats : List Category)
    (rules : List CategoryRule) (expenses : List ExpenseRow)
    (userId householdId expenseId : Nat) (form : EditForm) (now : String) :
    EditOutcome × List ExpenseRow × List CategoryRule :=
  match (expenses.filter (fun e =>
      e.id = expenseId ∧ e.householdId = householdId)).head? with
  | none => (.notFound, expenses, rules)
  | some expense =>
    let paidBy := normalize_paid_by form.paidBy
    let description := pyStrip form.description
    let submittedUpdatedAt := pyStrip form.updatedAt
    let effectiveUpdatedAt :=
      if submittedUpdatedAt ≠ "" then submittedUpdatedAt
      else expense.updatedAt.getD ""
    let userCats := cats.filter (fun c => c.userId = userId)
    let availableNames := userCats.map (fun c => c.name)
    let categoryName := match form.categoryId with
      | none => none
      | some cid => (userCats.filter (fun c => c.id = cid)).head?
    let step1 : String × List CategoryRule :=
      match categoryName with
      | some c => (c.name, rules)
      | none =>
        let cz := categorize_transaction cfg rules userId description
          expense.vendor "" availableNames
        (cz.1.category, cz.2)
    let resolvedCategory := step1.1
    let rules1 := step1.2
    let categoryId1 :=
      if categoryName = none ∧ resolvedCategory ≠ "" then
        match (userCats.filter (fun c => c.name = resolvedCategory)).head? with
        | some found => some found.id
        | none => form.categoryId
      else form.categoryId
    let cz2 := categorize_transaction cfg rules1 userId description
      (derive_vendor description) resolvedCategory availableNames
    let rules2 := cz2.2
    let categorization :=
      if resolvedCategory ≠ "" ∧ cz2.1.source = "unknown" then
        (⟨resolvedCategory, 25, "unknown"⟩ : CategorizeResult)
      else cz2.1
    match pyFloat form.amount with
    | none => (.invalidAmount, expenses, rules2)
    | some amountValue =>
      if ¬(paidBy = "" ∨ paidBy = "DK" ∨ paidBy = "YZ") then
        (.invalidPaidBy, expenses, rules2)
      else if (expenses.filter (editLockPred expenseId householdId
          effectiveUpdatedAt)).isEmpty then
        (.conflict, expenses, rules2)
      else
        let newExpenses := expenses.map (fun e =>
          if editLockPred expenseId householdId effectiveUpdatedAt e then
            { e with
              date := form.date
              amount := amountValue
              categoryId := categoryId1
              description := description
              vendor := derive_vendor description
              isTransfer := is_transfer_transaction description resolvedCategory
              isPersonal := resolvedCategory = "Personal"
              confidence := categorization.confidence
              source := categorization.source
              tags := derive_tags description
              paidBy := paidBy
              updatedAt := some now }
          else e)
        let rules3 := match categoryId1 with
          | some cid =>
            if expense.categoryId ≠ some cid then
              learn_rule cfg cats rules2 userId description
                (if expense.vendor ≠ "" then expense.vendor
                 else derive_vendor description) cid "manual_edit"
            else rules2
          | none => rules2
        (.updated, newExpenses, rules3)

/-! Claim C8: optimistic concurrency on expense edits. -/

theorem normalize_paid_by_cases (s : String) :
    normalize_paid_by s = "" ∨ normalize_paid_by s = "DK" ∨
    normalize_paid_by s = "YZ" := by
  simp only [normalize_paid_by]
  split_ifs <;> simp

/-- Concrete stored row used to settle claim C8. -/
def c8Row : ExpenseRow :=
  ⟨1, 1, 1, "2026-11-01", 15, none, "To edit", "to edit", "", false, false, 25,
    "unknown", [], some "2025-01-01 10:00:00"⟩

/-- C8 counterexample: when the caller presents an empty `updated_at` while
the stored value is non-empty, the two differ and yet the edit succeeds and
mutates the row — the source falls back to the freshly-read stored value when
the submitted one is blank, skipping the lock check. -/
theorem c8_counterexample :
    ("" : String) ≠ (c8Row.updatedAt.getD "") ∧
    (edit_expense ⟨true, false⟩ [⟨1, 1, "Groceries"⟩] [] [c8Row] 1 1 1
      ⟨"2026-11-02", "-15.25", "", none, "To edit", ""⟩ "2026-11-03 09:00:00").1 =
      .updated ∧
    (edit_expense ⟨true, false⟩ [⟨1, 1, "Groceries"⟩] [] [c8Row] 1 1 1
      ⟨"2026-11-02", "-15.25", "", none, "To edit", ""⟩ "2026-11-03 09:00:00").2.1 =
      [{ c8Row with
          date := "2026-11-02"
          amount := -61/4
          updatedAt := some "2026-11-03 09:00:00" }] := by
  with_unfolding_all decide

/-- C8 amended: when the caller presents a non-empty `updated_at` that differs
from the stored `COALESCE(updated_at, '')` of the row, the UPDATE matches zero
rows, no field of any expense is mutated, and the operation reports the
edited-elsewhere conflict; a blank presented value instead skips the check by
falling back to the stored value. Row identity (id within the household) is
assumed unique, as the primary key guarantees. -/
theorem c8_optimistic_lock (cfg : AppConfig) (cats : List Category)
    (rules : List CategoryRule) (expenses : List ExpenseRow)
    (userId householdId expenseId : Nat) (form : EditForm) (now : String)
    (exp : ExpenseRow) (q : ℚ)
    (hexp : (expenses.filter (fun e =>
      e.id = expenseId ∧ e.householdId = householdId)).head? = some exp)
    (huniq : ∀ e ∈ expenses, e.id = expenseId → e.householdId = householdId → e = exp)
    (hsub : pyStrip form.updatedAt ≠ "")
    (hneq : pyStrip form.updatedAt ≠ exp.updatedAt.getD "")
    (hamt : pyFloat form.amount = some q) :
    (edit_expense cfg cats rules expenses userId householdId expenseId form now).1 =
      .conflict ∧
    (edit_expense cfg cats rules expenses userId householdId expenseId form now).2.1 =
      expenses := by
  have hempty : expenses.filter
      (editLockPred expenseId householdId (pyStrip form.updatedAt)) = [] := by
    rw [List.filter_eq_nil_iff]
    intro e he hpred
    simp only [editLockPred, Bool.and_eq_true, decide_eq_true_eq] at hpred
    obtain ⟨h1, h2, h3⟩ := hpred
    exact hneq (huniq e he h1 h2 ▸ h3.symm)
  rcases normalize_paid_by_cases form.paidBy with hpb | hpb | hpb <;>
    (simp only [edit_expense]; rw [hexp]; simp [hamt, hsub, hempty, hpb])

/-- C8 witness: the amended theorem applied to the concrete stored row with a
stale non-empty presented value. -/
theorem c8_optimistic_lock_witness :
    (edit_expense ⟨true, false⟩ [⟨1, 1, "Groceries"⟩] [] [c8Row] 1 1 1
      ⟨"2026-11-02", "-15.25", "", none, "To edit", "2024-12-31 00:00:00"⟩
      "2026-11-03 09:00:00").1 = .conflict ∧
    (edit_expense ⟨true, false⟩ [⟨1, 1, "Groceries"⟩] [] [c8Row] 1 1 1
      ⟨"2026-11-02", "-15.25", "", none, "To edit", "2024-12-31 00:00:00"⟩
      "2026-11-03 09:00:00").2.1 = [c8Row] :=
  c8_optimistic_lock ⟨true, false⟩ [⟨1, 1, "Groceries"⟩] [] [c8Row] 1 1 1
    ⟨"2026-11-02", "-15.25", "", none, "To edit", "2024-12-31 00:00:00"⟩
    "2026-11-03 09:00:00" c8Row (-61/4)
    (by with_unfolding_all decide)
    (by intro e he h1 h2
        simp only [List.mem_singleton] at he
        exact he)
    (by with_unfolding_all decide)
    (by with_unfolding_all decide)
    (by with_unfolding_all decide)

/-! CSV row parsing (`parse_csv_transactions`). -/

structure ColumnMapping where
  date : String
  description : String
  vendor : String
  amount : String
  debit : String
  credit : String
  category : String
  paidBy : String
deriving DecidableEq, Repr

structure ParsedRow where
  rowIndex : Nat
  userId : Nat
  date : String
  amount : ℚ
  description : String
  vendor : String
  vendorKey : String
  vendorRuleKey : String
  normalizedDescription : String
  descriptionRuleKey : String
  category : String
  csvCategoryName : String
  tags : List String
  paidBy : String
deriving DecidableEq, Repr

/-- Python `int()` of a mapping column value (the canonical digit strings the
app stores). -/
def parseNatDigits (s : String) : Option Nat :=
  let l := s.toList
  if l.isEmpty ∨ ¬l.all Char.isDigit then none else some (digitsVal l)

/-- Cell lookup of the inner `get_value` helper: empty when the field is
unmapped, the column index fails to parse, or the row is too short. -/
def getValue (mapping : ColumnMapping) (row : List String)
    (column : String) : String :=
  if column = "" then ""
  else
    match parseNatDigits column with
    | none => ""
    | some idx => (row.get? idx).getD ""

/-- Embeds `normalize_csv_category_name`. -/
def normalize_csv_category_name (value : String) : String :=
  String.mk (collapseWs (pyStrip value).toList)

/-- Payment-keyword test `any(keyword in normalized_description for keyword
in PAYMENT_KEYWORDS)` shared by the embedded-amount branch and the amex sign
re-normalization. -/
def containsPaymentKeyword (nd : String) : Bool :=
  PAYMENT_KEYWORDS.any (fun k => strHasSub nd k)

/-- Amex sign re-normalization applied to every emitted row: payment-keyword
rows are forced positive, every other row forced negative; other dialects
keep the resolved sign. -/
def amexNormalize (bankType nd : String) (a : ℚ) : ℚ :=
  if bankType = "amex" then
    (if containsPaymentKeyword nd then |a| else -|a|)
  else a

/-- Embeds the per-row body of `parse_csv_transactions`; `none` when the row
is skipped for an unparseable date or amount. -/
def parseCsvRow (mapping : ColumnMapping) (userId : Nat) (bankType : String)
    (rowIndex : Nat) (rawRow : List String) : Option ParsedRow :=
  let row := rawRow.map pyStrip
  let parsedDate := parse_transaction_date (getValue mapping row mapping.date)
  let rowDescription := getValue mapping row mapping.description
  let rowCategory := getValue mapping row mapping.category
  let csvCategoryName := normalize_csv_category_name rowCategory
  let normalizedDescription := normalize_description rowDescription
  let rowVendor :=
    if getValue mapping row mapping.vendor ≠ "" then getValue mapping row mapping.vendor
    else derive_vendor rowDescription
  let rowPaidBy := normalize_paid_by (getValue mapping row mapping.paidBy)
  let amount : Option ℚ :=
    if mapping.amount ≠ "" then parse_money (getValue mapping row mapping.amount)
    else
      match parse_money (getValue mapping row mapping.debit) with
      | some debitValue => some (-|debitValue|)
      | none =>
        match parse_money (getValue mapping row mapping.credit) with
        | some creditValue => some |creditValue|
        | none => none
  let extracted :=
    if amount = none ∧ bankType = "amex" ∧
        containsPaymentKeyword normalizedDescription then
      match extract_embedded_amount rowDescription with
      | (some extractedAmount, cleanedDescription) =>
        some (extractedAmount, cleanedDescription)
      | (none, _) => none
    else none
  let amount := match extracted with
    | some (extractedAmount, _) => some extractedAmount
    | none => amount
  let rowDescription := match extracted with
    | some (_, cleanedDescription) => cleanedDescription
    | none => rowDescription
  let normalizedDescription := match extracted with
    | some _ => normalize_description rowDescription
    | none => normalizedDescription
  let rowVendor := match extracted with
    | some _ =>
      if getValue mapping row mapping.vendor ≠ "" then getValue mapping row mapping.vendor
      else derive_vendor rowDescription
    | none => rowVendor
  match parsedDate, amount with
  | some d, some a =>
    some
      { rowIndex := rowIndex
        userId := userId
        date := isoDateString d
        amount := round2 (amexNormalize bankType normalizedDescription a)
        description := rowDescription
        vendor := rowVendor
        vendorKey := normalize_text rowVendor
        vendorRuleKey := extract_pattern rowVendor 4
        normalizedDescription := normalizedDescription
        descriptionRuleKey := extract_pattern rowDescription 3
        category := infer_category rowDescription rowCategory []
        csvCategoryName := csvCategoryName
        tags := derive_tags rowDescription
        paidBy := rowPaidBy }
  | _, _ => none

/-- Embeds `parse_csv_transactions`: parsed rows and the skipped-row count. -/
def parse_csv_transactions (rows : List (List String)) (mapping : ColumnMapping)
    (userId : Nat) (bankType : String) : List ParsedRow × Nat :=
  let parsed := rows.enum.filterMap
    (fun rc => parseCsvRow mapping userId bankType rc.1 rc.2)
  (parsed, rows.length - parsed.length)

/-! Claim C7: Amex sign re-normalization and embedded-amount extraction. -/

theorem roundHalfEven_nonneg {x : ℚ} (h : 0 ≤ x) : 0 ≤ roundHalfEven x := by
  unfold roundHalfEven
  have hfl : (0 : ℤ) ≤ ⌊x⌋ := Int.floor_nonneg.mpr h
  split_ifs <;> omega

theorem roundHalfEven_nonpos {x : ℚ} (h : x ≤ 0) : roundHalfEven x ≤ 0 := by
  unfold roundHalfEven
  have hfl : ⌊x⌋ ≤ 0 := by
    have h0 := Int.floor_le_floor (α := ℚ) h
    simpa using h0
  split_ifs with h1 h2 h3
  · exact hfl
  · have hz : ⌊x⌋ ≠ 0 := by
      intro hz0
      rw [hz0] at h1
      push_neg at h1
      simp only [Int.cast_zero, sub_zero] at h1
      linarith
    omega
  · exact hfl
  · have hz : ⌊x⌋ ≠ 0 := by
      intro hz0
      rw [hz0] at h3
      exact h3 rfl
    omega

theorem round2_nonneg {x : ℚ} (h : 0 ≤ x) : 0 ≤ round2 x := by
  unfold round2
  have := roundHalfEven_nonneg (x := x * 100) (by positivity)
  positivity

theorem round2_nonpos {x : ℚ} (h : x ≤ 0) : round2 x ≤ 0 := by
  unfold round2
  have h1 : roundHalfEven (x * 100) ≤ 0 :=
    roundHalfEven_nonpos (by nlinarith)
  have h2 : (roundHalfEven (x * 100) : ℚ) ≤ 0 := by exact_mod_cast h1
  linarith

/-- Sign behavior of the amex re-normalization after rounding. -/
theorem amexNormalize_round2_sign (nd : String) (a : ℚ) :
    (containsPaymentKeyword nd = true →
      round2 (amexNormalize "amex" nd a) = |round2 (amexNormalize "amex" nd a)|) ∧
    (containsPaymentKeyword nd = false →
      round2 (amexNormalize "amex" nd a) = -|round2 (amexNormalize "amex" nd a)|) := by
  constructor
  · intro hk
    simp [amexNormalize, hk]
    exact (abs_of_nonneg (round2_nonneg (abs_nonneg a))).symm
  · intro hk
    simp [amexNormalize, hk]
    rw [abs_of_nonpos (round2_nonpos (neg_nonpos_of_nonneg (abs_nonneg a)))]
    ring

/-- C7: under the amex dialect every emitted row has its sign re-normalized
(payment-keyword rows are `abs(amount)`, all others `-abs(amount)`), and the
concrete thank-you row with no amount column and an embedded `-162.67` parses
to `+162.67` with the number stripped from the description and category
Credit Card Payments. -/
theorem c7_amex_sign (rows : List (List String)) (mapping : ColumnMapping)
    (userId : Nat) (r : ParsedRow)
    (hmem : r ∈ (parse_csv_transactions rows mapping userId "amex").1) :
    (containsPaymentKeyword r.normalizedDescription = true →
      r.amount = |r.amount|) ∧
    (containsPaymentKeyword r.normalizedDescription = false →
      r.amount = -|r.amount|) ∧
    parse_csv_transactions [["2026-01-10", "ONLINE PAYMENT THANK YOU -162.67"]]
      ⟨"0", "1", "", "", "", "", "", ""⟩ 1 "amex" =
    ([{ rowIndex := 0
        userId := 1
        date := "2026-01-10"
        amount := 16267/100
        description := "ONLINE PAYMENT THANK YOU"
        vendor := "online thank you"
        vendorKey := "online thank you"
        vendorRuleKey := "online thank you"
        normalizedDescription := "online payment thank you"
        descriptionRuleKey := "online payment thank"
        category := "Credit Card Payments"
        csvCategoryName := ""
        tags := []
        paidBy := "" }], 0) := by
  simp only [parse_csv_transactions, List.mem_filterMap] at hmem
  obtain ⟨rc, -, hp⟩ := hmem
  rw [parseCsvRow] at hp
  split at hp
  · rw [Option.some.injEq] at hp
    subst hp
    exact ⟨(amexNormalize_round2_sign _ _).1, (amexNormalize_round2_sign _ _).2,
      by with_unfolding_all rfl⟩
  · exact absurd hp (by simp)

/-- C7 witness: the sign property applied to the emitted row of a concrete
amex restaurant charge encoded with a positive source amount. -/
theorem c7_amex_sign_witness :
    (containsPaymentKeyword
      (ParsedRow.mk 0 1 "2026-01-10" (-20) "RESTAURANT XYZ" "restaurant xyz"
        "restaurant xyz" "restaurant xyz" "restaurant xyz" "restaurant xyz" ""
        "" [] "").normalizedDescription = true →
      (ParsedRow.mk 0 1 "2026-01-10" (-20) "RESTAURANT XYZ" "restaurant xyz"
        "restaurant xyz" "restaurant xyz" "restaurant xyz" "restaurant xyz" ""
        "" [] "").amount =
      |(ParsedRow.mk 0 1 "2026-01-10" (-20) "RESTAURANT XYZ" "restaurant xyz"
        "restaurant xyz" "restaurant xyz" "restaurant xyz" "restaurant xyz" ""
        "" [] "").amount|) ∧
    (containsPaymentKeyword
      (ParsedRow.mk 0 1 "2026-01-10" (-20) "RESTAURANT XYZ" "restaurant xyz"
        "restaurant xyz" "restaurant xyz" "restaurant xyz" "restaurant xyz" ""
        "" [] "").normalizedDescription = false →
      (ParsedRow.mk 0 1 "2026-01-10" (-20) "RESTAURANT XYZ" "restaurant xyz"
        "restaurant xyz" "restaurant xyz" "restaurant xyz" "restaurant xyz" ""
        "" [] "").amount =
      -|(ParsedRow.mk 0 1 "2026-01-10" (-20) "RESTAURANT XYZ" "restaurant xyz"
        "restaurant xyz" "restaurant xyz" "restaurant xyz" "restaurant xyz" ""
        "" [] "").amount|) ∧
    parse_csv_transactions [["2026-01-10", "ONLINE PAYMENT THANK YOU -162.67"]]
      ⟨"0", "1", "", "", "", "", "", ""⟩ 1 "amex" =
    ([{ rowIndex := 0
        userId := 1
        date := "2026-01-10"
        amount := 16267/100
        description := "ONLINE PAYMENT THANK YOU"
        vendor := "online thank you"
        vendorKey := "online thank you"
        vendorRuleKey := "online thank you"
        normalizedDescription := "online payment thank you"
        descriptionRuleKey := "online payment thank"
        category := "Credit Card Payments"
        csvCategoryName := ""
        tags := []
        paidBy := "" }], 0) :=
  c7_amex_sign [["2026-01-10", "RESTAURANT XYZ", "20.00"]]
    ⟨"0", "1", "", "2", "", "", "", ""⟩ 1
    (ParsedRow.mk 0 1 "2026-01-10" (-20) "RESTAURANT XYZ" "restaurant xyz"
      "restaurant xyz" "restaurant xyz" "restaurant xyz" "restaurant xyz" ""
      "" [] "")
    (by rw [show (parse_csv_transactions [["2026-01-10", "RESTAURANT XYZ", "20.00"]]
          ⟨"0", "1", "", "2", "", "", "", ""⟩ 1 "amex").1 =
        [ParsedRow.mk 0 1 "2026-01-10" (-20) "RESTAURANT XYZ" "restaurant xyz"
          "restaurant xyz" "restaurant xyz" "restaurant xyz" "restaurant xyz" ""
          "" [] ""] from by with_unfolding_all rfl]
        exact List.mem_singleton.mpr rfl)

/-! Import confirmation (the `action == "confirm"` branch of `import_csv`),
modelled with explicit transaction state: `committed` is what survives the
request if it aborts, `current` additionally holds uncommitted writes.
`db.commit()` promotes `current` to `committed`; the early-redirect on a
missing payer returns with `current` discarded, since the connection is
closed without commit at request teardown and SQLite rolls back. -/

structure InsertedExpense where
  userId : Nat
  householdId : Nat
  date : String
  amount : ℚ
  categoryId : Option Nat
  description : String
  vendor : String
  paidBy : String
  isTransfer : Bool
  isPersonal : Bool
  confidence : Nat
  source : String
  tags : List String
deriving DecidableEq, Repr

structure ConfirmDb where
  expenses : List InsertedExpense
  rules : List CategoryRule
deriving DecidableEq, Repr

structure TxnState where
  committed : ConfirmDb
  current : ConfirmDb
deriving DecidableEq, Repr

def commitDb (st : TxnState) : TxnState := ⟨st.current, st.current⟩

structure StagedRow where
  rowIndex : Nat
  date : String
  amount : ℚ
  description : String
  normalizedDescription : String
  vendor : String
  category : String
  paidBy : String
  overrideCategory : String
  csvCategoryName : String
  mappedCategoryId : Option Nat
  categoryId : Option Nat
  autoCategory : String
  tags : List String
deriving DecidableEq, Repr

/-- Confirm-request form: `importDefaultPaidBy = none` models the field being
absent from the POST body (Python `request.form.get(...) is None`), and
`hasPaidByOverrides` models `any(key.startswith("override_paid_by_"))`. -/
structure ConfirmForm where
  importDefaultPaidBy : Option String
  hasPaidByOverrides : Bool
  overridePaidBy : Nat → String
  overrideCategory : Nat → String
  overrideVendor : Nat → String

/-- Python string `or`: the first operand when non-empty. -/
def strOr (a b : String) : String := if a = "" then b else a

/-- Embeds the default-paid-by resolution of the confirm branch: DK when the
request carries neither the default field nor any per-row override field. -/
def confirmDefaultPaidBy (form : ConfirmForm) : String :=
  if form.importDefaultPaidBy = none ∧ ¬form.hasPaidByOverrides then "DK"
  else normalize_paid_by (form.importDefaultPaidBy.getD "")

/-- Resolved payer of one staged row:
`normalize_paid_by(form_override or row.paid_by or default)`. -/
def resolvedPaidBy (form : ConfirmForm) (defPaid : String) (row : StagedRow) :
    String :=
  normalize_paid_by (strOr (form.overridePaidBy row.rowIndex)
    (strOr row.paidBy defPaid))

/-- Dedup check of the confirm loop: an existing transaction of the same
household with the same date and amount whose normalized description equals
the staged row's normalized description. -/
def isDuplicateRow (expenses : List InsertedExpense) (householdId : Nat)
    (row : StagedRow) : Bool :=
  (expenses.filter (fun e => e.householdId = householdId ∧ e.date = row.date ∧
    e.amount = row.amount)).any
    (fun e => normalize_description e.description = row.normalizedDescription)

/-- The `category_lookup` dict `{normalize_description(name): id}`; later
entries win as in a Python dict build. -/
def catIdLookup (cats : List Category) (key : String) : Option Nat :=
  ((cats.filter (fun c => normalize_description c.name = key)).map
    (fun c => c.id)).getLast?

/-- The `categories_by_id` dict. -/
def catNameById (cats : List Category) (cid : Nat) : Option String :=
  ((cats.filter (fun c => c.id = cid)).map (fun c => c.name)).getLast?

/-- Whether `resolve_learned_category` issued its hit-reinforcement
`db.commit()` inside `categorize_transaction`: exactly when a learned rule
resolved. -/
def categorizeCommitted (res : CategorizeResult) : Bool :=
  res.source = "learned_vendor" ∨ res.source = "learned_description"

/-- Whether `learn_rule` reached its upsert (and hence its `db.commit()`):
the learning flag is on, the category exists for the user, the transaction is
not transfer-classified and the pattern passes the quality guard. -/
def learnRuleWrites (cfg : AppConfig) (cats : List Category) (userId : Nat)
    (description vendor : String) (categoryId : Nat) : Bool :=
  match (cats.filter (fun c => c.id = categoryId ∧ c.userId = userId)).head? with
  | none => false
  | some cat =>
    cfg.enableLearningRules && !is_transfer_transaction description cat.name &&
    !(decide (learnPattern vendor description = "" ∨
      LEARNING_STOPLIST.contains (learnPattern vendor description) = true ∨
      (learnPattern vendor description).length < 3))

/-- Category resolution of one confirmed row before the engine fallback: the
caller override, then the staged CSV-mapped category id. -/
def confirmAfterStaged (cats : List Category) (row : StagedRow)
    (override : String) : Option Nat × String × (Nat × String) :=
  let availNames := cats.map (fun c => c.name)
  let assigned0 := if override ≠ "" then
      pick_existing_category override availNames "" else ""
  let categoryId0 : Option Nat :=
    if assigned0 ≠ "" then catIdLookup cats (normalize_description assigned0)
    else none
  let categorized0 : Nat × String :=
    if assigned0 ≠ "" then (100, "import_override") else (25, "unknown")
  let stagedId : Option Nat :=
    match row.mappedCategoryId with
    | some v => some v
    | none => row.categoryId
  if categoryId0 = none then
    match stagedId with
    | some sid =>
      match catNameById cats sid with
      | some cname => (some sid, cname, (100, "csv_mapped"))
      | none => (categoryId0, assigned0, categorized0)
    | none => (categoryId0, assigned0, categorized0)
  else (categoryId0, assigned0, categorized0)

/-- Category resolution of one confirmed row (override, then staged CSV
mapping, then unknown-CSV marker, then the categorization engine). Returns
(category id, assigned category, (confidence, source), transaction state
after any hit-reinforcement commit inside the engine). -/
def confirmResolveCategory (cfg : AppConfig) (cats : List Category)
    (userId : Nat) (st : TxnState) (row : StagedRow)
    (override rowVendor rowCategory : String) :
    Option Nat × String × (Nat × String) × TxnState :=
  let a := confirmAfterStaged cats row override
  if a.1 = none ∧ row.csvCategoryName ≠ "" then
    (a.1, a.2.1, (25, "unknown_csv_category"), st)
  else if a.1 = none then
    let cz := categorize_transaction cfg st.current.rules userId
      row.description rowVendor rowCategory (cats.map (fun c => c.name))
    let st1 : TxnState :=
      { st with current := { st.current with rules := cz.2 } }
    let st2 := if categorizeCommitted cz.1 then commitDb st1 else st1
    let cid := if cz.1.category ≠ "" then
        catIdLookup cats (normalize_description cz.1.category)
      else none
    (cid, cz.1.category, (cz.1.confidence, cz.1.source), st2)
  else (a.1, a.2.1, a.2.2, st)

/-- The `INSERT INTO expenses` record of one confirmed row. -/
def confirmNewExpense (userId householdId : Nat) (row : StagedRow)
    (paidByOverride rowVendor : String) (categoryId : Option Nat)
    (assigned : String) (categorized : Nat × String) : InsertedExpense :=
  { userId := userId
    householdId := householdId
    date := row.date
    amount := row.amount
    categoryId := categoryId
    description := row.description
    vendor := if rowVendor ≠ "" then rowVendor else derive_vendor row.description
    paidBy := paidByOverride
    isTransfer := is_transfer_transaction row.description assigned
    isPersonal := assigned = "Personal"
    confidence := categorized.1
    source := categorized.2
    tags := if row.tags.isEmpty then derive_tags row.description else row.tags }

/-- Resolved category override of one row:
`form_override or row.override_category`. -/
def resolvedOverride (form : ConfirmForm) (row : StagedRow) : String :=
  strOr (form.overrideCategory row.rowIndex) row.overrideCategory

/-- Resolved vendor of one row after the vendor override and the
derive-vendor fallback. -/
def resolvedVendor (form : ConfirmForm) (row : StagedRow) : String :=
  if pyStrip (form.overrideVendor row.rowIndex) ≠ "" then
    pyStrip (form.overrideVendor row.rowIndex)
  else if row.vendor = "" then derive_vendor row.description
  else row.vendor

/-- The expense record actually inserted for one confirmed row, as a function
of the pre-insert state. -/
def confirmInsertedExpense (cfg : AppConfig) (cats : List Category)
    (userId householdId : Nat) (form : ConfirmForm) (defPaid : String)
    (st : TxnState) (row : StagedRow) : InsertedExpense :=
  let override := resolvedOverride form row
  let rowVendor := resolvedVendor form row
  let rowCategory := if override ≠ "" then override else row.category
  let resolved := confirmResolveCategory cfg cats userId st row override
    rowVendor rowCategory
  confirmNewExpense userId householdId row (resolvedPaidBy form defPaid row)
    rowVendor resolved.1 resolved.2.1 resolved.2.2.1

/-- The dedup-check-and-insert part of one confirm iteration, reached when
the missing-payer block did not fire. -/
def confirmRowOk (cfg : AppConfig) (cats : List Category)
    (userId householdId : Nat) (form : ConfirmForm) (defPaid : String)
    (st : TxnState) (keys : List (String × String × Nat)) (row : StagedRow) :
    TxnState × List (String × String × Nat) × Bool :=
  if isDuplicateRow st.current.expenses householdId row then (st, keys, false)
  else
    let override := resolvedOverride form row
    let paidByOverride := resolvedPaidBy form defPaid row
    let rowVendor := resolvedVendor form row
    let rowCategory := if override ≠ "" then override else row.category
    let resolved := confirmResolveCategory cfg cats userId st row override
      rowVendor rowCategory
    let categoryId := resolved.1
    let assigned := resolved.2.1
    let categorized := resolved.2.2.1
    let st3 := resolved.2.2.2
    let newExpense := confirmInsertedExpense cfg cats userId householdId form
      defPaid st row
    let st4 : TxnState :=
      { st3 with current :=
        { st3.current with expenses := st3.current.expenses ++ [newExpense] } }
    match categoryId with
    | some cid =>
      if override ≠ "" ∧
          normalize_description override ≠ normalize_description row.autoCategory then
        let vendorPattern := extract_pattern rowVendor 4
        let descriptionPattern := extract_pattern row.description 3
        let identity := (vendorPattern, descriptionPattern, cid)
        if keys.contains identity then (st4, keys, true)
        else
          let rules' := learn_rule cfg cats st4.current.rules userId
            row.description rowVendor cid "import_override"
          let st5 : TxnState :=
            { st4 with current := { st4.current with rules := rules' } }
          let st6 :=
            if learnRuleWrites cfg cats userId row.description rowVendor cid then
              commitDb st5
            else st5
          (st6, identity :: keys, true)
      else (st4, keys, true)
    | none => (st4, keys, true)

/-- One iteration of the confirm loop over a staged row. Returns `none` for
the missing-payer redirect (the whole confirm aborts), otherwise the new
transaction state, the learned-rule dedup keys and whether the row was
inserted (`false` = skipped as duplicate). -/
def confirmRow (cfg : AppConfig) (cats : List Category)
    (userId householdId : Nat) (form : ConfirmForm) (defPaid : String)
    (st : TxnState) (keys : List (String × String × Nat)) (row : StagedRow) :
    Option (TxnState × List (String × String × Nat) × Bool) :=
  if row.amount < 0 ∧ resolvedPaidBy form defPaid row = "" then none
  else some (confirmRowOk cfg cats userId householdId form defPaid st keys row)

inductive ConfirmOutcome where
  | expired (db : ConfirmDb)
  | blocked (db : ConfirmDb)
  | success (db : ConfirmDb) (imported skipped : Nat)
deriving Repr

def confirmLoop (cfg : AppConfig) (cats : List Category)
    (userId householdId : Nat) (form : ConfirmForm) (defPaid : String) :
    List StagedRow → TxnState → List (String × String × Nat) → Nat → Nat →
    ConfirmOutcome
  | [], st, _, imported, skipped =>
    .success (commitDb st).committed imported skipped
  | row :: rest, st, keys, imported, skipped =>
    match confirmRow cfg cats userId householdId form defPaid st keys row with
    | none => .blocked st.committed
    | some (st', keys', inserted) =>
      confirmLoop cfg cats userId householdId form defPaid rest st' keys'
        (if inserted then imported + 1 else imported)
        (if inserted then skipped else skipped + 1)

/-- Embeds the confirm action of `import_csv`: expired when no staged rows
resolve, otherwise the loop over the staged rows starting from a state where
nothing is uncommitted. -/
def import_csv_confirm (cfg : AppConfig) (cats : List Category)
    (userId householdId : Nat) (form : ConfirmForm) (staged : List StagedRow)
    (db0 : ConfirmDb) : ConfirmOutcome :=
  if staged.isEmpty then .expired db0
  else
    confirmLoop cfg cats userId householdId form (confirmDefaultPaidBy form)
      staged ⟨db0, db0⟩ [] 0 0

/-! Claim C5: atomicity of the missing-payer hard block. -/

/-- First staged row of the C5 batch: a valid DK-paid spending row with a
category override that triggers rule learning. -/
def c5Row0 : StagedRow :=
  ⟨0, "2026-05-01", -10, "Metro Market", "metro market", "Metro Market", "",
    "DK", "", "", none, none, "", []⟩

/-- Second staged row of the C5 batch: a spending row with no payer. -/
def c5Row1 : StagedRow :=
  ⟨1, "2026-05-02", -25, "No payer", "no payer", "No payer", "", "", "", "",
    none, none, "", []⟩

/-- Confirm form of the C5 batch: empty default payer, category override
Groceries for row 0. -/
def c5Form : ConfirmForm :=
  ⟨some "", false, fun _ => "", fun i => if i = 0 then "Groceries" else "",
    fun _ => ""⟩

/-- C5: evaluation of the confirm embedding at the failing batch. The second
row's missing payer aborts the confirm with the error outcome, yet the first
row is already persisted: `learn_rule`'s `db.commit()` (issued for the
category override of row 0) committed the pending `INSERT` of row 0 before
the block fired, so the expenses table is not unchanged — a partial import.
With the single offending row alone (the scenario of the repository's own
test) nothing is persisted. -/
theorem c5_partial_commit_on_blocked_confirm :
    import_csv_confirm ⟨true, false⟩ [⟨1, 1, "Groceries"⟩] 1 1 c5Form
      [c5Row0, c5Row1] ⟨[], []⟩ =
    .blocked
      ⟨[⟨1, 1, "2026-05-01", -10, some 1, "Metro Market", "Metro Market", "DK",
          false, false, 100, "import_override", []⟩],
        [⟨1, 1, "vendor", "metro market", "Groceries", 0, 0, true,
          "import_override"⟩]⟩ ∧
    import_csv_confirm ⟨true, false⟩ [⟨1, 1, "Groceries"⟩] 1 1
      ⟨some "", false, fun _ => "", fun _ => "", fun _ => ""⟩ [c5Row1]
      ⟨[], []⟩ =
    .blocked ⟨[], []⟩ := by
  exact ⟨by with_unfolding_all rfl, by with_unfolding_all rfl⟩

/-! Structural lemmas about the confirm loop, shared by the duplicate-skip
and default-payer claims. -/

theorem confirmResolveCategory_expenses (cfg : AppConfig) (cats : List Category)
    (userId : Nat) (st : TxnState) (row : StagedRow)
    (override rowVendor rowCategory : String) :
    (confirmResolveCategory cfg cats userId st row override
      rowVendor rowCategory).2.2.2.current.expenses = st.current.expenses := by
  simp only [confirmResolveCategory]
  split
  · rfl
  split
  · split <;> (first | rfl | (split <;> rfl))
  · rfl

theorem confirmRowOk_skip (cfg : AppConfig) (cats : List Category)
    (userId householdId : Nat) (form : ConfirmForm) (defPaid : String)
    (st : TxnState) (keys : List (String × String × Nat)) (row : StagedRow)
    (hdup : isDuplicateRow st.current.expenses householdId row = true) :
    confirmRowOk cfg cats userId householdId form defPaid st keys row =
      (st, keys, false) := by
  unfold confirmRowOk
  rw [if_pos (by simp [hdup])]

theorem confirmInsertedExpense_fields (cfg : AppConfig) (cats : List Category)
    (userId householdId : Nat) (form : ConfirmForm) (defPaid : String)
    (st : TxnState) (row : StagedRow) :
    (confirmInsertedExpense cfg cats userId householdId form defPaid st row).householdId
      = householdId ∧
    (confirmInsertedExpense cfg cats userId householdId form defPaid st row).date
      = row.date ∧
    (confirmInsertedExpense cfg cats userId householdId form defPaid st row).amount
      = row.amount ∧
    (confirmInsertedExpense cfg cats userId householdId form defPaid st row).description
      = row.description ∧
    (confirmInsertedExpense cfg cats userId householdId form defPaid st row).paidBy
      = resolvedPaidBy form defPaid row :=
  ⟨rfl, rfl, rfl, rfl, rfl⟩

theorem confirmRowOk_insert (cfg : AppConfig) (cats : List Category)
    (userId householdId : Nat) (form : ConfirmForm) (defPaid : String)
    (st : TxnState) (keys : List (String × String × Nat)) (row : StagedRow)
    (hdup : isDuplicateRow st.current.expenses householdId row = false) :
    ∃ st' keys',
      confirmRowOk cfg cats userId householdId form defPaid st keys row =
        (st', keys', true) ∧
      st'.current.expenses = st.current.expenses ++
        [confirmInsertedExpense cfg cats userId householdId form defPaid st row] := by
  simp only [confirmRowOk]
  rw [if_neg (by simp [hdup])]
  split
  next cid heq =>
    split
    · split
      · exact ⟨_, _, rfl, by simp [confirmResolveCategory_expenses]⟩
      · split
        · exact ⟨_, _, rfl, by simp [commitDb, confirmResolveCategory_expenses]⟩
        · exact ⟨_, _, rfl, by simp [confirmResolveCategory_expenses]⟩
    · exact ⟨_, _, rfl, by simp [confirmResolveCategory_expenses]⟩
  next heq =>
    exact ⟨_, _, rfl, by simp [confirmResolveCategory_expenses]⟩

theorem isDuplicateRow_mono {l1 l2 : List InsertedExpense}
    (hsub : ∀ e ∈ l1, e ∈ l2) (householdId : Nat) (row : StagedRow)
    (h : isDuplicateRow l1 householdId row = true) :
    isDuplicateRow l2 householdId row = true := by
  simp only [isDuplicateRow, List.any_eq_true, List.mem_filter,
    decide_eq_true_eq] at h ⊢
  obtain ⟨e, ⟨he, hp⟩, hn⟩ := h
  exact ⟨e, ⟨hsub e he, hp⟩, hn⟩

theorem isDuplicateRow_append {l : List InsertedExpense} {e : InsertedExpense}
    (householdId : Nat) (row : StagedRow)
    (hh : e.householdId = householdId) (hd : e.date = row.date)
    (ha : e.amount = row.amount)
    (hn : normalize_description e.description = row.normalizedDescription) :
    isDuplicateRow (l ++ [e]) householdId row = true := by
  simp only [isDuplicateRow, List.any_eq_true, List.mem_filter,
    decide_eq_true_eq]
  exact ⟨e, ⟨by simp, hh, hd, ha⟩, hn⟩

theorem confirmLoop_success_dup (cfg : AppConfig) (cats : List Category)
    (userId householdId : Nat) (form : ConfirmForm) (defPaid : String)
    (rows : List StagedRow)
    (hnorm : ∀ row ∈ rows,
      normalize_description row.description = row.normalizedDescription) :
    ∀ st keys imported skipped db1 i s,
    confirmLoop cfg cats userId householdId form defPaid rows st keys
      imported skipped = .success db1 i s →
    (∀ e ∈ st.current.expenses, e ∈ db1.expenses) ∧
    (∀ row ∈ rows, isDuplicateRow db1.expenses householdId row = true) := by
  induction rows with
  | nil =>
    intro st keys imported skipped db1 i s h
    simp only [confirmLoop, commitDb, ConfirmOutcome.success.injEq] at h
    obtain ⟨h1, -, -⟩ := h
    subst h1
    exact ⟨fun e he => he, fun row hr => absurd hr (List.not_mem_nil row)⟩
  | cons row rest ih =>
    intro st keys imported skipped db1 i s h
    simp only [confirmLoop] at h
    split at h
    · exact absurd h (by simp)
    next st' keys' inserted heq =>
      rw [confirmRow] at heq
      split at heq
      · exact absurd heq (by simp)
      · rw [Option.some.injEq] at heq
        by_cases hdup : isDuplicateRow st.current.expenses householdId row = true
        · rw [confirmRowOk_skip cfg cats userId householdId form defPaid st keys
            row hdup, Prod.mk.injEq, Prod.mk.injEq] at heq
          obtain ⟨h1, h2, h3⟩ := heq
          obtain ⟨hmono, hdups⟩ := ih (fun r hr => hnorm r (List.mem_cons_of_mem _ hr))
            st' keys' _ _ db1 i s h
          refine ⟨fun e he => hmono e (h1 ▸ he), fun r hr => ?_⟩
          rcases List.mem_cons.mp hr with hr0 | hr1
          · subst hr0
            exact isDuplicateRow_mono (fun e he => hmono e (h1 ▸ he))
              householdId r hdup
          · exact hdups r hr1
        · rw [Bool.not_eq_true] at hdup
          obtain ⟨st2, keys2, hok, hlist⟩ :=
            confirmRowOk_insert cfg cats userId householdId form defPaid st keys
              row hdup
          obtain ⟨hfh, hfd, hfa, hfdesc, hfp⟩ :=
            confirmInsertedExpense_fields cfg cats userId householdId form
              defPaid st row
          rw [hok, Prod.mk.injEq, Prod.mk.injEq] at heq
          obtain ⟨h1, h2, h3⟩ := heq
          obtain ⟨hmono, hdups⟩ := ih (fun r hr => hnorm r (List.mem_cons_of_mem _ hr))
            st' keys' _ _ db1 i s h
          have hmono0 : ∀ x ∈ st.current.expenses, x ∈ db1.expenses := by
            intro x hx
            exact hmono x (h1 ▸ hlist ▸ List.mem_append_left _ hx)
          refine ⟨hmono0, fun r hr => ?_⟩
          rcases List.mem_cons.mp hr with hr0 | hr1
          · subst hr0
            have hdupnew : isDuplicateRow st2.current.expenses householdId r = true := by
              rw [hlist]
              exact isDuplicateRow_append householdId r hfh hfd hfa
                (by rw [hfdesc]; exact hnorm r (List.mem_cons_self r rest))
            exact isDuplicateRow_mono (fun x hx => hmono x (h1 ▸ hx))
              householdId r hdupnew
          · exact hdups r hr1

theorem confirmLoop_all_dup (cfg : AppConfig) (cats : List Category)
    (userId householdId : Nat) (form : ConfirmForm) (defPaid : String)
    (rows : List StagedRow) (db1 : ConfirmDb)
    (hnb : ∀ row ∈ rows, ¬(row.amount < 0 ∧ resolvedPaidBy form defPaid row = ""))
    (hdup : ∀ row ∈ rows, isDuplicateRow db1.expenses householdId row = true) :
    ∀ keys imported skipped,
    confirmLoop cfg cats userId householdId form defPaid rows ⟨db1, db1⟩ keys
      imported skipped = .success db1 imported (skipped + rows.length) := by
  induction rows with
  | nil =>
    intro keys imported skipped
    simp [confirmLoop, commitDb]
  | cons row rest ih =>
    intro keys imported skipped
    simp only [confirmLoop, confirmRow]
    rw [if_neg (hnb row (List.mem_cons_self row rest)),
      confirmRowOk_skip cfg cats userId householdId form defPaid ⟨db1, db1⟩ keys
        row (hdup row (List.mem_cons_self row rest))]
    have hrec := ih (fun r hr => hnb r (List.mem_cons_of_mem _ hr))
      (fun r hr => hdup r (List.mem_cons_of_mem _ hr)) keys imported (skipped + 1)
    simp only [Bool.false_eq_true, if_false, ite_false]
    rw [hrec]
    congr 1
    simp only [List.length_cons]
    omega

theorem confirmLoop_success_exists (cfg : AppConfig) (cats : List Category)
    (userId householdId : Nat) (form : ConfirmForm) (defPaid : String)
    (rows : List StagedRow)
    (hnb : ∀ row ∈ rows, ¬(row.amount < 0 ∧ resolvedPaidBy form defPaid row = "")) :
    ∀ st keys imported skipped, ∃ db i s,
    confirmLoop cfg cats userId householdId form defPaid rows st keys
      imported skipped = .success db i s := by
  induction rows with
  | nil =>
    intro st keys imported skipped
    exact ⟨st.current, imported, skipped, rfl⟩
  | cons row rest ih =>
    intro st keys imported skipped
    simp only [confirmLoop, confirmRow]
    rw [if_neg (hnb row (List.mem_cons_self row rest))]
    obtain ⟨db, i, s, hh⟩ := ih (fun r hr => hnb r (List.mem_cons_of_mem _ hr))
      (confirmRowOk cfg cats userId householdId form defPaid st keys row).1
      (confirmRowOk cfg cats userId householdId form defPaid st keys row).2.1
      (if (confirmRowOk cfg cats userId householdId form defPaid st keys row).2.2
        then imported + 1 else imported)
      (if (confirmRowOk cfg cats userId householdId form defPaid st keys row).2.2
        then skipped else skipped + 1)
    exact ⟨db, i, s, hh⟩

theorem confirmLoop_origin (cfg : AppConfig) (cats : List Category)
    (userId householdId : Nat) (form : ConfirmForm) (defPaid : String)
    (rows : List StagedRow)
    (hnb : ∀ row ∈ rows, ¬(row.amount < 0 ∧ resolvedPaidBy form defPaid row = "")) :
    ∀ st keys imported skipped db i s,
    confirmLoop cfg cats userId householdId form defPaid rows st keys
      imported skipped = .success db i s →
    ∀ e ∈ db.expenses, e ∈ st.current.expenses ∨
      ∃ row ∈ rows, e.paidBy = resolvedPaidBy form defPaid row := by
  induction rows with
  | nil =>
    intro st keys imported skipped db i s h e he
    simp only [confirmLoop, commitDb, ConfirmOutcome.success.injEq] at h
    obtain ⟨h1, -, -⟩ := h
    subst h1
    exact Or.inl he
  | cons row rest ih =>
    intro st keys imported skipped db i s h e he
    simp only [confirmLoop] at h
    split at h
    · exact absurd h (by simp)
    next st' keys' inserted heq =>
      rw [confirmRow] at heq
      split at heq
      · exact absurd heq (by simp)
      · rw [Option.some.injEq] at heq
        by_cases hdup : isDuplicateRow st.current.expenses householdId row = true
        · rw [confirmRowOk_skip cfg cats userId householdId form defPaid st keys
            row hdup, Prod.mk.injEq, Prod.mk.injEq] at heq
          obtain ⟨h1, h2, h3⟩ := heq
          rcases ih (fun r hr => hnb r (List.mem_cons_of_mem _ hr))
            st' keys' _ _ db i s h e he with h4 | ⟨r, hr, hp⟩
          · exact Or.inl (h1 ▸ h4)
          · exact Or.inr ⟨r, List.mem_cons_of_mem _ hr, hp⟩
        · rw [Bool.not_eq_true] at hdup
          obtain ⟨st2, keys2, hok, hlist⟩ :=
            confirmRowOk_insert cfg cats userId householdId form defPaid st keys
              row hdup
          rw [hok, Prod.mk.injEq, Prod.mk.injEq] at heq
          obtain ⟨h1, h2, h3⟩ := heq
          rcases ih (fun r hr => hnb r (List.mem_cons_of_mem _ hr))
            st' keys' _ _ db i s h e he with h4 | ⟨r, hr, hp⟩
          · rw [← h1, hlist] at h4
            rcases List.mem_append.mp h4 with h5 | h5
            · exact Or.inl h5
            · rw [List.mem_singleton] at h5
              subst h5
              exact Or.inr ⟨row, List.mem_cons_self row rest,
                (confirmInsertedExpense_fields cfg cats userId householdId form
                  defPaid st row).2.2.2.2⟩
          · exact Or.inr ⟨r, List.mem_cons_of_mem _ hr, hp⟩

/-! Claim C6: duplicate skipping at import confirm. -/

/-- C6: within one confirm iteration a staged row is skipped (state and keys
unchanged, not inserted) exactly when some existing transaction of the same
household with the same date and amount has a normalized description equal to
the staged row's; consequently, confirming a parsed row set whose rows carry
consistent normalized descriptions and resolved payers a second time inserts
zero rows, skips every row and leaves the database unchanged. -/
theorem c6_dedup_skip (cfg : AppConfig) (cats : List Category)
    (userId householdId : Nat) (form : ConfirmForm) (staged : List StagedRow)
    (db0 db1 : ConfirmDb) (imported skipped : Nat)
    (hnorm : ∀ row ∈ staged,
      normalize_description row.description = row.normalizedDescription)
    (hnb : ∀ row ∈ staged,
      ¬(row.amount < 0 ∧
        resolvedPaidBy form (confirmDefaultPaidBy form) row = "")) :
    (∀ (st : TxnState) (keys : List (String × String × Nat)) (row : StagedRow),
      ¬(row.amount < 0 ∧
        resolvedPaidBy form (confirmDefaultPaidBy form) row = "") →
      (confirmRow cfg cats userId householdId form (confirmDefaultPaidBy form)
          st keys row = some (st, keys, false) ↔
        isDuplicateRow st.current.expenses householdId row = true)) ∧
    (import_csv_confirm cfg cats userId householdId form staged db0 =
        .success db1 imported skipped →
      import_csv_confirm cfg cats userId householdId form staged db1 =
        .success db1 0 staged.length) := by
  constructor
  · intro st keys row hrow
    constructor
    · intro heq
      by_cases hdup : isDuplicateRow st.current.expenses householdId row = true
      · exact hdup
      · rw [Bool.not_eq_true] at hdup
        obtain ⟨st2, keys2, hok, -⟩ :=
          confirmRowOk_insert cfg cats userId householdId form
            (confirmDefaultPaidBy form) st keys row hdup
        rw [confirmRow, if_neg hrow, hok, Option.some.injEq, Prod.mk.injEq,
          Prod.mk.injEq] at heq
        exact absurd heq.2.2 (by simp)
    · intro hdup
      rw [confirmRow, if_neg hrow,
        confirmRowOk_skip cfg cats userId householdId form
          (confirmDefaultPaidBy form) st keys row hdup]
  · intro hsucc
    rcases staged with _ | ⟨row, rest⟩
    · exact absurd hsucc (by simp [import_csv_confirm])
    · have hne : ¬(row :: rest : List StagedRow).isEmpty := by simp
      rw [import_csv_confirm, if_neg hne] at hsucc
      have hdups := (confirmLoop_success_dup cfg cats userId householdId form
        (confirmDefaultPaidBy form) (row :: rest) hnorm ⟨db0, db0⟩ [] 0 0 db1
        imported skipped hsucc).2
      rw [import_csv_confirm, if_neg hne]
      have h := confirmLoop_all_dup cfg cats userId householdId form
        (confirmDefaultPaidBy form) (row :: rest) db1 hnb hdups [] 0 0
      simpa using h

/-- Staged row of the C6 witness. -/
def c6Row : StagedRow :=
  ⟨0, "2026-02-10", -10, "Coffee", "coffee", "Coffee", "", "DK", "", "", none,
    none, "", []⟩

/-- Confirm form of the C6 witness: default payer DK, no overrides. -/
def c6Form : ConfirmForm :=
  ⟨some "DK", false, fun _ => "", fun _ => "", fun _ => ""⟩

/-- Database produced by the first confirm of the C6 witness. -/
def c6Db1 : ConfirmDb :=
  ⟨[⟨1, 1, "2026-02-10", -10, none, "Coffee", "Coffee", "DK", false, false, 75,
    "keyword_vendor", []⟩], []⟩

/-- C6 witness: confirming the identical parsed row a second time imports
zero rows and skips the single row. -/
theorem c6_dedup_skip_witness :
    import_csv_confirm ⟨true, false⟩ [] 1 1 c6Form [c6Row] c6Db1 =
      .success c6Db1 0 1 :=
  (c6_dedup_skip ⟨true, false⟩ [] 1 1 c6Form [c6Row] ⟨[], []⟩ c6Db1 1 0
    (by intro row hr
        rw [List.mem_singleton] at hr
        subst hr
        with_unfolding_all rfl)
    (by intro row hr hcon
        rw [List.mem_singleton] at hr
        subst hr
        exact absurd hcon.2 (by with_unfolding_all decide))).2
    (by with_unfolding_all rfl)

/-! Claim C9: the implicit DK default payer on bare confirm requests. -/

/-- C9: when the confirm request carries no default-paid-by field and no
per-row paid-by override fields, the default resolves to DK, every staged row
with a blank `paid_by` is assigned DK before the missing-payer check, such a
confirm is never blocked by the missing-payer check (given the staged rows
carry the parser's normalized payer values), and every expense inserted by it
carries payer DK or YZ — never blank. -/
theorem c9_bare_confirm_defaults_dk (cfg : AppConfig) (cats : List Category)
    (userId householdId : Nat) (form : ConfirmForm) (staged : List StagedRow)
    (db0 : ConfirmDb)
    (hdef : form.importDefaultPaidBy = none)
    (hov : form.hasPaidByOverrides = false)
    (hfn : ∀ i, form.overridePaidBy i = "")
    (hrows : ∀ row ∈ staged,
      row.paidBy = "" ∨ row.paidBy = "DK" ∨ row.paidBy = "YZ") :
    confirmDefaultPaidBy form = "DK" ∧
    (∀ row ∈ staged, row.paidBy = "" →
      resolvedPaidBy form (confirmDefaultPaidBy form) row = "DK") ∧
    (∀ db, import_csv_confirm cfg cats userId householdId form staged db0 ≠
      .blocked db) ∧
    (∀ db i s,
      import_csv_confirm cfg cats userId householdId form staged db0 =
        .success db i s →
      ∀ e ∈ db.expenses, e ∈ db0.expenses ∨ e.paidBy = "DK" ∨ e.paidBy = "YZ") := by
  have hdk : confirmDefaultPaidBy form = "DK" := by
    rw [confirmDefaultPaidBy, if_pos ⟨hdef, by simp [hov]⟩]
  have hres : ∀ row ∈ staged,
      resolvedPaidBy form (confirmDefaultPaidBy form) row = "DK" ∨
      resolvedPaidBy form (confirmDefaultPaidBy form) row = "YZ" := by
    intro row hr
    rw [hdk, resolvedPaidBy, hfn row.rowIndex]
    rcases hrows row hr with hp | hp | hp <;> rw [hp] <;>
      first
      | exact Or.inl (by with_unfolding_all rfl)
      | exact Or.inr (by with_unfolding_all rfl)
  have hnb : ∀ row ∈ staged,
      ¬(row.amount < 0 ∧
        resolvedPaidBy form (confirmDefaultPaidBy form) row = "") := by
    intro row hr hcon
    rcases hres row hr with hp | hp <;> rw [hp] at hcon <;>
      exact absurd hcon.2 (by simp)
  refine ⟨hdk, ?_, ?_, ?_⟩
  · intro row hr hblank
    rw [hdk, resolvedPaidBy, hfn row.rowIndex, hblank]
    with_unfolding_all rfl
  · intro db
    rcases hempty : staged.isEmpty with hfalse | htrue
    · rw [import_csv_confirm, if_neg (by simp [hempty])]
      obtain ⟨db2, i, s, hh⟩ := confirmLoop_success_exists cfg cats userId
        householdId form (confirmDefaultPaidBy form) staged hnb ⟨db0, db0⟩ [] 0 0
      rw [hh]
      simp
    · rw [import_csv_confirm, if_pos (by simp [hempty])]
      simp
  · intro db i s hsucc e he
    rcases hempty : staged.isEmpty with hfalse | htrue
    · rw [import_csv_confirm, if_neg (by simp [hempty])] at hsucc
      rcases confirmLoop_origin cfg cats userId householdId form
        (confirmDefaultPaidBy form) staged hnb ⟨db0, db0⟩ [] 0 0 db i s hsucc
        e he with h4 | ⟨r, hr, hp⟩
      · exact Or.inl h4
      · rw [hp]
        exact Or.inr (hres r hr)
    · rw [import_csv_confirm, if_pos (by simp [hempty])] at hsucc
      exact absurd hsucc (by simp)

/-- Staged row of the C9 witness: a spending row with a blank payer. -/
def c9Row : StagedRow :=
  ⟨0, "2026-02-10", -10, "Coffee", "coffee", "Coffee", "", "", "", "", none,
    none, "", []⟩

/-- Confirm form of the C9 witness: the default-paid-by field is absent and no
override-paid-by fields are present. -/
def c9Form : ConfirmForm :=
  ⟨none, false, fun _ => "", fun _ => "", fun _ => ""⟩

/-- C9 witness: on the bare confirm request the default payer is DK, the blank
row resolves to DK, and the confirm is not blocked. -/
theorem c9_bare_confirm_defaults_dk_witness :
    confirmDefaultPaidBy c9Form = "DK" ∧
    resolvedPaidBy c9Form (confirmDefaultPaidBy c9Form) c9Row = "DK" ∧
    import_csv_confirm ⟨true, false⟩ [] 1 1 c9Form [c9Row] ⟨[], []⟩ ≠
      .blocked ⟨[], []⟩ := by
  have h := c9_bare_confirm_defaults_dk ⟨true, false⟩ [] 1 1 c9Form [c9Row]
    ⟨[], []⟩ rfl rfl (fun _ => rfl)
    (by intro row hr
        rw [List.mem_singleton] at hr
        subst hr
        exact Or.inl rfl)
  exact ⟨h.1, h.2.1 c9Row (List.mem_singleton.mpr rfl) rfl, h.2.2.1 ⟨[], []⟩⟩

end ExpenseTracker
